import Mathlib

/-!
Verification of the flymoon transit-prediction engine.

The development shallowly embeds the core of the repository:
* `src/flight_cache.py` — the TTL-bounded flight-data cache (rational
  timestamps, association-list store mirroring the Python dict);
* `src/transit.py` — angular separation, the possibility classifier, the
  per-flight closest-approach scan `check_transit`, and the orchestrator
  `get_transits`;
* `src/flight_data.py` — `sort_results`;
* `src/position.py` — `predict_position`;
* `app.py` — `calculate_adaptive_interval`.

External collaborators (skyfield ephemeris lookups, the alt/az transform
`geographic_to_altaz`, the HTTP flight feed, the weather API) are modelled as
oracle parameters; everything the repository itself computes is embedded.
Python `round(x, n)` (round-half-even) is modelled exactly.
-/

/-! ### Python round-half-even on rationals (used by the cache key format) -/

/-- Round-half-even of a rational to an integer, as Python `round` does. -/
def roundHalfEvenQ (x : ℚ) : ℤ :=
  if Int.fract x < 1/2 then ⌊x⌋
  else if 1/2 < Int.fract x then ⌊x⌋ + 1
  else if Even ⌊x⌋ then ⌊x⌋ else ⌊x⌋ + 1

/-- Python `round(x, n)` on rationals (also the rounding used by the
`"%.nf"` format in `FlightDataCache._make_key`). -/
def pyRoundQ (x : ℚ) (ndigits : ℕ) : ℚ :=
  (roundHalfEvenQ (x * 10 ^ ndigits) : ℚ) / 10 ^ ndigits

/-! ### `src/flight_cache.py` — `FlightDataCache`

Timestamps (`time.time()` values) are passed in explicitly as rational
numbers; the payload type is a parameter.  The Python dict holding the
entries is modelled as an association list updated in place. -/

/-- One cache entry: `{"data": ..., "timestamp": ...}`. -/
structure CacheEntry (α : Type) where
  data : α
  timestamp : ℚ
  deriving Repr, DecidableEq

/-- A bounding box key before formatting: `(lat_ll, lon_ll, lat_ur, lon_ur)`. -/
abbrev BBoxKey := ℚ × ℚ × ℚ × ℚ

/-- `FlightDataCache._make_key`: the `f"{v:.4f}"` formatting of each corner,
modelled as rounding each coordinate to 4 decimal digits. -/
def make_key (bbox : BBoxKey) : BBoxKey :=
  (pyRoundQ bbox.1 4, pyRoundQ bbox.2.1 4, pyRoundQ bbox.2.2.1 4, pyRoundQ bbox.2.2.2 4)

/-- `FlightDataCache` state: TTL, the entry dict, and the hit/miss/eviction
counters from `_stats`. -/
structure FlightDataCache (α : Type) where
  ttl : ℚ
  cache : List (BBoxKey × CacheEntry α)
  hits : ℕ
  misses : ℕ
  evictions : ℕ
  deriving Repr

/-- `FlightDataCache.MAX_CACHE_SIZE`. -/
def MAX_CACHE_SIZE : ℕ := 100

/-- Dict lookup on the association list. -/
def lookupKey {α : Type} (k : BBoxKey) : List (BBoxKey × CacheEntry α) → Option (CacheEntry α)
  | [] => none
  | kv :: rest => if kv.1 = k then some kv.2 else lookupKey k rest

/-- Dict deletion (`del self._cache[key]`). -/
def removeKey {α : Type} (k : BBoxKey) (l : List (BBoxKey × CacheEntry α)) :
    List (BBoxKey × CacheEntry α) :=
  l.filter (fun kv => kv.1 ≠ k)

/-- Dict assignment (`self._cache[key] = entry`): replace in place if the key
exists, otherwise append. -/
def assocSet {α : Type} (k : BBoxKey) (v : CacheEntry α) (l : List (BBoxKey × CacheEntry α)) :
    List (BBoxKey × CacheEntry α) :=
  if l.any (fun kv => kv.1 = k) then l.map (fun kv => if kv.1 = k then (k, v) else kv)
  else l ++ [(k, v)]

/-- `FlightDataCache.__init__(ttl_seconds)`. -/
def initCache (α : Type) (ttl : ℚ) : FlightDataCache α :=
  { ttl := ttl, cache := [], hits := 0, misses := 0, evictions := 0 }

/-- `FlightDataCache.get`: returns the cached payload (or `none` on a miss)
together with the updated cache state; `now` is the current `time.time()`. -/
def FlightDataCache.get {α : Type} (c : FlightDataCache α) (now : ℚ) (bbox : BBoxKey) :
    Option α × FlightDataCache α :=
  let key := make_key bbox
  match lookupKey key c.cache with
  | none => (none, { c with misses := c.misses + 1 })
  | some entry =>
      let age := now - entry.timestamp
      if c.ttl < age then
        (none, { c with cache := removeKey key c.cache,
                        evictions := c.evictions + 1,
                        misses := c.misses + 1 })
      else
        (some entry.data, { c with hits := c.hits + 1 })

/-- `FlightDataCache._cleanup_expired`. -/
def FlightDataCache.cleanup_expired {α : Type} (c : FlightDataCache α) (now : ℚ) :
    FlightDataCache α :=
  let expired := c.cache.filter (fun kv => c.ttl < now - kv.2.timestamp)
  { c with cache := c.cache.filter (fun kv => ¬ c.ttl < now - kv.2.timestamp),
           evictions := c.evictions + expired.length }

/-- `FlightDataCache.set`: sweep expired entries when at capacity, then store
the payload under the formatted bounding-box key with the current time. -/
def FlightDataCache.set {α : Type} (c : FlightDataCache α) (now : ℚ) (bbox : BBoxKey)
    (data : α) : FlightDataCache α :=
  let c1 := if MAX_CACHE_SIZE ≤ c.cache.length then c.cleanup_expired now else c
  { c1 with cache := assocSet (make_key bbox) { data := data, timestamp := now } c1.cache }

/-- `FlightDataCache.clear`. -/
def FlightDataCache.clear {α : Type} (c : FlightDataCache α) : FlightDataCache α :=
  { c with cache := [] }

/-- A request made to the cache, for reasoning about request traces. -/
inductive CacheOp (α : Type) where
  | get (now : ℚ) (bbox : BBoxKey)
  | set (now : ℚ) (bbox : BBoxKey) (data : α)
  | clear

/-- Run a trace of cache operations (each `get` discards the payload). -/
def runOps {α : Type} (c : FlightDataCache α) : List (CacheOp α) → FlightDataCache α
  | [] => c
  | CacheOp.get now bbox :: rest => runOps (c.get now bbox).2 rest
  | CacheOp.set now bbox data :: rest => runOps (c.set now bbox data) rest
  | CacheOp.clear :: rest => runOps c.clear rest

/-- Number of `get` requests in a trace. -/
def countGets {α : Type} : List (CacheOp α) → ℕ
  | [] => 0
  | CacheOp.get _ _ :: rest => countGets rest + 1
  | _ :: rest => countGets rest

/-! #### Cache lemmas -/

lemma lookupKey_assocSet {α : Type} (k : BBoxKey) (v : CacheEntry α)
    (l : List (BBoxKey × CacheEntry α)) : lookupKey k (assocSet k v l) = some v := by
  unfold assocSet
  by_cases hany : l.any (fun kv => kv.1 = k)
  · simp only [hany, if_true]
    induction l with
    | nil => simp at hany
    | cons kv rest ih =>
        by_cases hk : kv.1 = k
        · simp [lookupKey, hk]
        · simp only [List.any_cons, decide_eq_true_eq, hk, false_or, Bool.false_or] at hany
          simp [lookupKey, hk, ih hany]
  · simp only [hany, if_false]
    induction l with
    | nil => simp [lookupKey]
    | cons kv rest ih =>
        simp only [List.any_cons, Bool.or_eq_true, decide_eq_true_eq, not_or] at hany
        simp only [List.cons_append, lookupKey, if_neg hany.1]
        exact ih (by simpa using hany.2)

lemma lookupKey_removeKey {α : Type} (k : BBoxKey) (l : List (BBoxKey × CacheEntry α)) :
    lookupKey k (removeKey k l) = none := by
  induction l with
  | nil => simp [removeKey, lookupKey]
  | cons kv rest ih =>
      by_cases hk : kv.1 = k
      · simpa [removeKey, hk] using ih
      · simpa [removeKey, lookupKey, hk] using ih

lemma ttl_set {α : Type} (c : FlightDataCache α) (now : ℚ) (bbox : BBoxKey) (data : α) :
    (c.set now bbox data).ttl = c.ttl := by
  unfold FlightDataCache.set FlightDataCache.cleanup_expired
  by_cases h : MAX_CACHE_SIZE ≤ c.cache.length <;> simp [h]

lemma runOps_counter {α : Type} (ops : List (CacheOp α)) :
    ∀ c : FlightDataCache α,
      (runOps c ops).hits + (runOps c ops).misses =
        c.hits + c.misses + countGets ops := by
  induction ops with
  | nil => intro c; simp [runOps, countGets]
  | cons op rest ih =>
      intro c
      cases op with
      | get now bbox =>
          have h : (c.get now bbox).2.hits + (c.get now bbox).2.misses =
              c.hits + c.misses + 1 := by
            unfold FlightDataCache.get
            cases hl : lookupKey (make_key bbox) c.cache with
            | none => simp [hl]; ring
            | some entry =>
                by_cases hage : c.ttl < now - entry.timestamp
                · simp [hl, hage]; ring
                · simp [hl, hage]; ring
          simp only [runOps, countGets, ih]
          omega
      | set now bbox data =>
          have hh : (c.set now bbox data).hits = c.hits := by
            unfold FlightDataCache.set FlightDataCache.cleanup_expired
            by_cases h : MAX_CACHE_SIZE ≤ c.cache.length <;> simp [h]
          have hm : (c.set now bbox data).misses = c.misses := by
            unfold FlightDataCache.set FlightDataCache.cleanup_expired
            by_cases h : MAX_CACHE_SIZE ≤ c.cache.length <;> simp [h]
          simp only [runOps, countGets, ih, hh, hm]
      | clear =>
          simp only [runOps, countGets, ih, FlightDataCache.clear]

lemma get_after_set_within_ttl {α : Type} (c : FlightDataCache α) (now1 now2 : ℚ)
    (bbox : BBoxKey) (payload : α) (h : now2 - now1 ≤ c.ttl) :
    ((c.set now1 bbox payload).get now2 bbox).1 = some payload := by
  have hl : lookupKey (make_key bbox) (c.set now1 bbox payload).cache =
      some { data := payload, timestamp := now1 } := by
    unfold FlightDataCache.set
    exact lookupKey_assocSet _ _ _
  have httl : (c.set now1 bbox payload).ttl = c.ttl := ttl_set c now1 bbox payload
  unfold FlightDataCache.get
  simp [hl, httl, not_lt.mpr h]

lemma get_after_set_expired {α : Type} (c : FlightDataCache α) (now1 now2 : ℚ)
    (bbox : BBoxKey) (payload : α) (h : c.ttl < now2 - now1) :
    ((c.set now1 bbox payload).get now2 bbox).1 = none ∧
      lookupKey (make_key bbox) ((c.set now1 bbox payload).get now2 bbox).2.cache = none := by
  have hl : lookupKey (make_key bbox) (c.set now1 bbox payload).cache =
      some { data := payload, timestamp := now1 } := by
    unfold FlightDataCache.set
    exact lookupKey_assocSet _ _ _
  have httl : (c.set now1 bbox payload).ttl = c.ttl := ttl_set c now1 bbox payload
  unfold FlightDataCache.get
  simp [hl, httl, h, lookupKey_removeKey]

/-- **C7.** After `set(bbox, payload)` at `now1`, a `get(bbox)` at `now2` with
age within the TTL returns exactly that payload; a `get` whose age exceeds the
TTL misses and evicts the entry; and starting from a fresh cache, after any
trace of operations the hit counter plus the miss counter equals the number of
`get` requests made. -/
theorem cache_ttl_and_counters (α : Type) (c : FlightDataCache α) (now1 now2 : ℚ)
    (bbox : BBoxKey) (payload : α) :
    (now2 - now1 ≤ c.ttl → ((c.set now1 bbox payload).get now2 bbox).1 = some payload) ∧
    (c.ttl < now2 - now1 → ((c.set now1 bbox payload).get now2 bbox).1 = none ∧
      lookupKey (make_key bbox) ((c.set now1 bbox payload).get now2 bbox).2.cache = none) ∧
    (∀ (ttl : ℚ) (ops : List (CacheOp α)),
      (runOps (initCache α ttl) ops).hits + (runOps (initCache α ttl) ops).misses =
        countGets ops) := by
  refine ⟨fun h => get_after_set_within_ttl c now1 now2 bbox payload h,
          fun h => get_after_set_expired c now1 now2 bbox payload h,
          fun ttl ops => ?_⟩
  have := runOps_counter ops (initCache α ttl)
  simpa [initCache] using this

/-- Witness for C7 at a concrete instance: TTL 10, set at time 0, hit at
time 5 (age 5 ≤ 10), miss + eviction at time 11 (age 11 > 10), and counters on
the trace get-set-get-get sum to the three get requests. -/
theorem cache_ttl_and_counters_witness :
    (((initCache ℕ 10).set 0 (1, 2, 3, 4) 37).get 5 (1, 2, 3, 4)).1 = some 37 ∧
    ((((initCache ℕ 10).set 0 (1, 2, 3, 4) 37).get 11 (1, 2, 3, 4)).1 = none ∧
      lookupKey (make_key (1, 2, 3, 4))
        ((((initCache ℕ 10).set 0 (1, 2, 3, 4) 37).get 11 (1, 2, 3, 4)).2.cache) = none) ∧
    (runOps (initCache ℕ 10)
        [CacheOp.get 0 (1, 2, 3, 4), CacheOp.set 1 (1, 2, 3, 4) 5,
         CacheOp.get 2 (1, 2, 3, 4), CacheOp.get 99 (1, 2, 3, 4)]).hits +
      (runOps (initCache ℕ 10)
        [CacheOp.get 0 (1, 2, 3, 4), CacheOp.set 1 (1, 2, 3, 4) 5,
         CacheOp.get 2 (1, 2, 3, 4), CacheOp.get 99 (1, 2, 3, 4)]).misses = 3 :=
  ⟨(cache_ttl_and_counters ℕ (initCache ℕ 10) 0 5 (1, 2, 3, 4) 37).1 (by norm_num [initCache]),
   (cache_ttl_and_counters ℕ (initCache ℕ 10) 0 11 (1, 2, 3, 4) 37).2.1
     (by norm_num [initCache]),
   (cache_ttl_and_counters ℕ (initCache ℕ 10) 0 11 (1, 2, 3, 4) 37).2.2 10
     [CacheOp.get 0 (1, 2, 3, 4), CacheOp.set 1 (1, 2, 3, 4) 5,
      CacheOp.get 2 (1, 2, 3, 4), CacheOp.get 99 (1, 2, 3, 4)]⟩

/-! ### Real-valued part of the engine

Geometry is real-valued (Python floats are idealised as reals), so the
remaining definitions live in a noncomputable section: order comparisons on
`ℝ` use the classical decidability instances. -/

noncomputable section

open scoped Classical

/-- Python `round` to an integer over the reals (round-half-even). -/
def roundHalfEven (x : ℝ) : ℤ :=
  if Int.fract x < 1/2 then ⌊x⌋
  else if 1/2 < Int.fract x then ⌊x⌋ + 1
  else if Even ⌊x⌋ then ⌊x⌋ else ⌊x⌋ + 1

/-- Python `round(x, ndigits)` over the reals. -/
def pyRound (x : ℝ) (ndigits : ℕ) : ℝ :=
  (roundHalfEven (x * 10 ^ ndigits) : ℝ) / 10 ^ ndigits

lemma roundHalfEven_intCast (m : ℤ) : roundHalfEven (m : ℝ) = m := by
  unfold roundHalfEven
  rw [Int.fract_intCast, Int.floor_intCast]
  norm_num

lemma pyRound_eq_self {x : ℝ} {n : ℕ} {m : ℤ} (h : x * 10 ^ n = (m : ℝ)) :
    pyRound x n = x := by
  unfold pyRound
  rw [h, roundHalfEven_intCast, ← h]
  have h10 : (10 : ℝ) ^ n ≠ 0 := by positivity
  field_simp

lemma roundHalfEven_nonneg {x : ℝ} (h : 0 ≤ x) : 0 ≤ roundHalfEven x := by
  have hf : (0 : ℤ) ≤ ⌊x⌋ := Int.floor_nonneg.mpr h
  unfold roundHalfEven
  split_ifs <;> omega

lemma pyRound_nonneg {x : ℝ} (n : ℕ) (h : 0 ≤ x) : 0 ≤ pyRound x n := by
  unfold pyRound
  have h1 : (0 : ℤ) ≤ roundHalfEven (x * 10 ^ n) :=
    roundHalfEven_nonneg (by positivity)
  have h2 : (0 : ℝ) ≤ (roundHalfEven (x * 10 ^ n) : ℝ) := by exact_mod_cast h1
  positivity

/-! ### Constants from `src/constants.py` -/

/-- `NUM_MINUTES_PER_HOUR`. -/
def NUM_MINUTES_PER_HOUR : ℝ := 60

/-- `EARTH_RADIOUS` (sic, km). -/
def EARTH_RADIOUS : ℝ := 6371

/-- `TOP_MINUTE`: look-ahead horizon in minutes. -/
def TOP_MINUTE : ℕ := 15

/-- `NUM_SECONDS_PER_MIN`. -/
def NUM_SECONDS_PER_MIN : ℕ := 60

/-- `INTERVAL_IN_SECS`: sampling step of the search window, in seconds. -/
def INTERVAL_IN_SECS : ℕ := 1

/-! `PossibilityLevel` enum values (`UNLIKELY=0, LOW=1, MEDIUM=2, HIGH=3`);
the code stores and compares the integer `.value`. -/

namespace PossibilityLevel

def UNLIKELY : ℤ := 0

def LOW : ℤ := 1

def MEDIUM : ℤ := 2

def HIGH : ℤ := 3

end PossibilityLevel

/-! ### `src/position.py` -/

/-- `math.radians`. -/
def radiansR (deg : ℝ) : ℝ := deg * Real.pi / 180

/-- `math.degrees`. -/
def degreesR (rad : ℝ) : ℝ := rad * 180 / Real.pi

/-- `math.atan2` (C convention, idealised over the reals). -/
def atan2R (y x : ℝ) : ℝ :=
  if 0 < x then Real.arctan (y / x)
  else if x < 0 ∧ 0 ≤ y then Real.arctan (y / x) + Real.pi
  else if x < 0 ∧ y < 0 then Real.arctan (y / x) - Real.pi
  else if 0 < y then Real.pi / 2
  else if y < 0 then -(Real.pi / 2)
  else 0

lemma atan2R_zero_of_nonneg {x : ℝ} (hx : 0 ≤ x) : atan2R 0 x = 0 := by
  unfold atan2R
  rcases lt_or_eq_of_le hx with hpos | hzero
  · rw [if_pos hpos, zero_div, Real.arctan_zero]
  · have hx0 : ¬ x < 0 := by rw [← hzero]; exact lt_irrefl 0
    simp [not_lt.mpr hx, hx0]

/-- `predict_position` from `src/position.py`: great-circle dead reckoning of
the aircraft from current position, ground speed (km/h), heading and minutes
ahead. -/
def predict_position (lat lon speed direction minutes : ℝ) : ℝ × ℝ :=
  let distance := speed / NUM_MINUTES_PER_HOUR * minutes
  let bearing := radiansR direction
  let lat_rads := radiansR lat
  let ratio_d_r := distance / EARTH_RADIOUS
  let new_lat := degreesR (Real.arcsin
    (Real.sin lat_rads * Real.cos ratio_d_r +
      Real.cos lat_rads * Real.sin ratio_d_r * Real.cos bearing))
  let new_lon := degreesR (radiansR lon +
    atan2R (Real.sin bearing * Real.sin ratio_d_r * Real.cos lat_rads)
      (Real.cos ratio_d_r - Real.sin lat_rads * Real.sin (radiansR new_lat)))
  (new_lat, new_lon)

lemma degreesR_radiansR (x : ℝ) : degreesR (radiansR x) = x := by
  unfold degreesR radiansR
  have hπ : Real.pi ≠ 0 := ne_of_gt Real.pi_pos
  field_simp

/-- **C9.** Zero-time dead reckoning is the identity: for every latitude in
[-90°, 90°], any longitude, speed and heading, `predict_position` with
`minutes = 0` returns exactly the input coordinates. -/
theorem predict_position_zero_minutes (lat lon speed direction : ℝ)
    (h1 : -90 ≤ lat) (h2 : lat ≤ 90) :
    predict_position lat lon speed direction 0 = (lat, lon) := by
  have hπ : (0 : ℝ) < Real.pi := Real.pi_pos
  have hl1 : -(Real.pi / 2) ≤ radiansR lat := by
    unfold radiansR
    nlinarith
  have hl2 : radiansR lat ≤ Real.pi / 2 := by
    unfold radiansR
    nlinarith
  have harcsin : Real.arcsin (Real.sin (radiansR lat)) = radiansR lat :=
    Real.arcsin_sin hl1 hl2
  unfold predict_position
  simp only [mul_zero, zero_div, Real.cos_zero, Real.sin_zero, mul_one, zero_mul, mul_zero,
    add_zero, harcsin, degreesR_radiansR]
  have hsq : Real.cos (radiansR lat) - Real.sin (radiansR lat) * Real.sin (radiansR lat)
      = Real.cos (radiansR lat) - Real.sin (radiansR lat) * Real.sin (radiansR lat) := rfl
  have hnn : 0 ≤ 1 - Real.sin (radiansR lat) * Real.sin (radiansR lat) := by
    have := Real.sin_sq_add_cos_sq (radiansR lat)
    nlinarith [sq_nonneg (Real.cos (radiansR lat))]
  rw [atan2R_zero_of_nonneg hnn, add_zero, degreesR_radiansR]

/-- Witness for C9 at a concrete input. -/
theorem predict_position_zero_minutes_witness :
    ((-90 : ℝ) ≤ 10 ∧ (10 : ℝ) ≤ 90) ∧
      predict_position 10 25 800 45 0 = (10, 25) :=
  ⟨by norm_num, predict_position_zero_minutes 10 25 800 45 (by norm_num) (by norm_num)⟩

/-! ### `src/transit.py` — separation and classifier -/

/-- `calculate_angular_separation`: Euclidean combination of the altitude and
azimuth differences (degrees). -/
def calculate_angular_separation (alt_diff az_diff : ℝ) : ℝ :=
  Real.sqrt (alt_diff ^ 2 + az_diff ^ 2)

/-- `get_possibility_level`: fixed bands on the angular separation. -/
def get_possibility_level (angular_separation : ℝ) : ℤ :=
  if angular_separation ≤ 1 then PossibilityLevel.HIGH
  else if angular_separation ≤ 2 then PossibilityLevel.MEDIUM
  else if angular_separation ≤ 6 then PossibilityLevel.LOW
  else PossibilityLevel.UNLIKELY

lemma sep_nonneg (a b : ℝ) : 0 ≤ calculate_angular_separation a b :=
  Real.sqrt_nonneg _

lemma sep_of_zero_az {a : ℝ} (ha : 0 ≤ a) : calculate_angular_separation a 0 = a := by
  unfold calculate_angular_separation
  rw [show a ^ 2 + (0 : ℝ) ^ 2 = a ^ 2 by ring, Real.sqrt_sq ha]

lemma level_eq_HIGH_iff {s : ℝ} :
    get_possibility_level s = PossibilityLevel.HIGH ↔ s ≤ 1 := by
  unfold get_possibility_level PossibilityLevel.HIGH PossibilityLevel.MEDIUM
    PossibilityLevel.LOW PossibilityLevel.UNLIKELY
  split_ifs with a b c <;> simp_all

lemma level_eq_MEDIUM_iff {s : ℝ} :
    get_possibility_level s = PossibilityLevel.MEDIUM ↔ 1 < s ∧ s ≤ 2 := by
  unfold get_possibility_level PossibilityLevel.HIGH PossibilityLevel.MEDIUM
    PossibilityLevel.LOW PossibilityLevel.UNLIKELY
  split_ifs with a b c <;> constructor <;> intro h <;> first
    | omega
    | (constructor <;> linarith)
    | linarith [h.1, h.2]

lemma level_eq_LOW_iff {s : ℝ} :
    get_possibility_level s = PossibilityLevel.LOW ↔ 2 < s ∧ s ≤ 6 := by
  unfold get_possibility_level PossibilityLevel.HIGH PossibilityLevel.MEDIUM
    PossibilityLevel.LOW PossibilityLevel.UNLIKELY
  split_ifs with a b c <;> constructor <;> intro h <;> first
    | omega
    | (constructor <;> linarith)
    | linarith [h.1, h.2]

lemma level_eq_UNLIKELY_iff {s : ℝ} :
    get_possibility_level s = PossibilityLevel.UNLIKELY ↔ 6 < s := by
  unfold get_possibility_level PossibilityLevel.HIGH PossibilityLevel.MEDIUM
    PossibilityLevel.LOW PossibilityLevel.UNLIKELY
  split_ifs with a b c <;> constructor <;> intro h <;> first
    | omega
    | linarith

/-- **C1.** The classifier applied to the Euclidean separation
`sqrt(alt_diff² + az_diff²)` returns HIGH exactly when the separation is ≤ 1°,
MEDIUM exactly when it is in (1°, 2°], LOW exactly in (2°, 6°], UNLIKELY
exactly above 6°; each band edge classifies at the stricter adjacent tier and
1.01°/2.01°/6.01° classify one tier looser. -/
theorem classifier_bands (alt az : ℝ) :
    (get_possibility_level (calculate_angular_separation alt az) = PossibilityLevel.HIGH ↔
      calculate_angular_separation alt az ≤ 1) ∧
    (get_possibility_level (calculate_angular_separation alt az) = PossibilityLevel.MEDIUM ↔
      1 < calculate_angular_separation alt az ∧ calculate_angular_separation alt az ≤ 2) ∧
    (get_possibility_level (calculate_angular_separation alt az) = PossibilityLevel.LOW ↔
      2 < calculate_angular_separation alt az ∧ calculate_angular_separation alt az ≤ 6) ∧
    (get_possibility_level (calculate_angular_separation alt az) = PossibilityLevel.UNLIKELY ↔
      6 < calculate_angular_separation alt az) ∧
    get_possibility_level (calculate_angular_separation 1 0) = PossibilityLevel.HIGH ∧
    get_possibility_level (calculate_angular_separation 2 0) = PossibilityLevel.MEDIUM ∧
    get_possibility_level (calculate_angular_separation 6 0) = PossibilityLevel.LOW ∧
    get_possibility_level (calculate_angular_separation 1.01 0) = PossibilityLevel.MEDIUM ∧
    get_possibility_level (calculate_angular_separation 2.01 0) = PossibilityLevel.LOW ∧
    get_possibility_level (calculate_angular_separation 6.01 0) = PossibilityLevel.UNLIKELY := by
  refine ⟨level_eq_HIGH_iff, level_eq_MEDIUM_iff, level_eq_LOW_iff, level_eq_UNLIKELY_iff,
    ?_, ?_, ?_, ?_, ?_, ?_⟩
  · rw [sep_of_zero_az (by norm_num : (0:ℝ) ≤ 1), level_eq_HIGH_iff]
  · rw [sep_of_zero_az (by norm_num : (0:ℝ) ≤ 2), level_eq_MEDIUM_iff]
    norm_num
  · rw [sep_of_zero_az (by norm_num : (0:ℝ) ≤ 6), level_eq_LOW_iff]
    norm_num
  · rw [sep_of_zero_az (by norm_num : (0:ℝ) ≤ 1.01), level_eq_MEDIUM_iff]
    norm_num
  · rw [sep_of_zero_az (by norm_num : (0:ℝ) ≤ 2.01), level_eq_LOW_iff]
    norm_num
  · rw [sep_of_zero_az (by norm_num : (0:ℝ) ≤ 6.01), level_eq_UNLIKELY_iff]
    norm_num

/-! ### `src/transit.py` — `check_transit`

The skyfield geometry (`geographic_to_altaz`, `CelestialObject.update_position`)
is external; it enters as an oracle `ScanCtx`.  Everything `check_transit`
itself computes — dead reckoning via `predict_position`, the haversine
observer distance, the differences, the running minimum, the 180-sample
early-exit counter, the per-sample response dict, the final override and
fallback — is embedded. -/

/-- A parsed flight record (the dict produced by `parse_fligh_data`). -/
structure Flight where
  name : String
  aircraft_type : String
  fa_flight_id : String
  origin : String
  destination : String
  latitude : ℝ
  longitude : ℝ
  direction : ℝ
  speed : ℝ
  elevation : ℝ
  elevation_feet : ℝ
  elevation_change : String

/-- `CHANGE_ELEVATION.get(code, None)` from `src/constants.py`. -/
def CHANGE_ELEVATION (code : String) : Option String :=
  if code = "C" then some "climbing"
  else if code = "D" then some "descending"
  else if code = "-" then some "level"
  else none

/-- The result dict built by `check_transit`. -/
structure TransitResponse where
  id : String
  aircraft_type : String
  fa_flight_id : String
  origin : String
  destination : String
  alt_diff : ℝ
  az_diff : ℝ
  angular_separation : ℝ
  time : Option ℝ
  target_alt : ℝ
  plane_alt : ℝ
  target_az : ℝ
  plane_az : ℝ
  is_possible_transit : ℤ
  possibility_level : ℤ
  elevation_change : Option String
  direction : ℝ
  target : String
  latitude : ℝ
  longitude : ℝ
  aircraft_elevation : ℝ
  aircraft_elevation_feet : ℝ
  distance_nm : ℝ

/-- The inline haversine distance from observer to aircraft in nautical miles
(`check_transit` lines 139–148). -/
def observer_distance_nm (observer_lat observer_lon flight_lat flight_lon : ℝ) : ℝ :=
  let lat1 := radiansR observer_lat
  let lon1 := radiansR observer_lon
  let lat2 := radiansR flight_lat
  let lon2 := radiansR flight_lon
  let dlat := lat2 - lat1
  let dlon := lon2 - lon1
  let a := Real.sin (dlat / 2) ^ 2 + Real.cos lat1 * Real.cos lat2 * Real.sin (dlon / 2) ^ 2
  let c := 2 * atan2R (Real.sqrt a) (Real.sqrt (1 - a))
  EARTH_RADIOUS * c * 0.539957

/-- Oracle for the external geometry of one (flight, target) pair:
`currentAltAz` is `geographic_to_altaz` of the current position at the
reference time; `altazAt pos minute` is `geographic_to_altaz` of a predicted
position at the future time `minute` minutes ahead; `targInit` is the
target's `(altitude, azimuthal)` degrees on entry; `targAt minute` is the
result of `target.update_position` at that future time. -/
structure ScanCtx where
  currentAltAz : ℝ × ℝ
  altazAt : ℝ × ℝ → ℝ → ℝ × ℝ
  targInit : ℝ × ℝ
  targAt : ℝ → ℝ × ℝ

/-- Mutable state of the `check_transit` scan loop: the running minimum
separation (`none` is `float("inf")`), the best response recorded so far,
the consecutive-no-improvement counter, the target position held by the
(mutable) `CelestialObject`, and the sample index at which the early exit
fired, if it did (the code logs that event). -/
structure ScanState where
  minSep : Option ℝ
  response : Option TransitResponse
  count : ℕ
  targetPos : ℝ × ℝ
  stoppedAt : Option ℕ

/-- `angular_sep < min_angular_sep`, where the minimum starts at infinity. -/
def ltMin (sep : ℝ) : Option ℝ → Prop
  | none => True
  | some m => sep < m

/-- The response dict recorded for one sample (`check_transit` lines
246–273; the `test_mode` block at lines 175–201 builds the same dict with
`time = 0.0`). -/
def mkResponse (flight : Flight) (targetName : String)
    (initial_target_alt initial_target_az distance_nm : ℝ)
    (alt_diff az_diff angular_sep : ℝ) (time : Option ℝ)
    (plane_alt plane_az : ℝ) : TransitResponse :=
  { id := flight.name
    aircraft_type := flight.aircraft_type
    fa_flight_id := flight.fa_flight_id
    origin := flight.origin
    destination := flight.destination
    alt_diff := pyRound alt_diff 3
    az_diff := pyRound az_diff 3
    angular_separation := pyRound angular_sep 3
    time := time
    target_alt := initial_target_alt
    plane_alt := pyRound plane_alt 2
    target_az := initial_target_az
    plane_az := pyRound plane_az 2
    is_possible_transit := if angular_sep ≤ 6 then 1 else 0
    possibility_level := get_possibility_level angular_sep
    elevation_change := CHANGE_ELEVATION flight.elevation_change
    direction := flight.direction
    target := targetName
    latitude := flight.latitude
    longitude := flight.longitude
    aircraft_elevation := flight.elevation
    aircraft_elevation_feet := flight.elevation_feet
    distance_nm := pyRound distance_nm 1 }

/-- The `for idx, minute in enumerate(window_time)` loop of `check_transit`
(lines 203–274), with the index threaded explicitly. -/
def transitLoop (ctx : ScanCtx) (flight : Flight) (targetName : String)
    (initial_target_alt initial_target_az distance_nm : ℝ) :
    List ℝ → ℕ → ScanState → ScanState
  | [], _, st => st
  | minute :: rest, idx, st =>
      let tp := if 0 < idx ∧ idx % 60 = 0 then ctx.targAt minute else st.targetPos
      let fut := predict_position flight.latitude flight.longitude flight.speed
        flight.direction minute
      let fa := (ctx.altazAt fut minute).1
      let faz := (ctx.altazAt fut minute).2
      let alt_diff := |fa - tp.1|
      let az_diff := |faz - tp.2|
      let angular_sep := calculate_angular_separation alt_diff az_diff
      if 180 ≤ st.count then
        { st with targetPos := tp, stoppedAt := some idx }
      else if ltMin angular_sep st.minSep then
        let st1 : ScanState :=
          { minSep := some angular_sep, response := st.response, count := 0,
            targetPos := tp, stoppedAt := st.stoppedAt }
        let st2 : ScanState :=
          if 0 < fa then
            { st1 with response := some (mkResponse flight targetName initial_target_alt
                initial_target_az distance_nm alt_diff az_diff angular_sep
                (some (pyRound minute 3)) fa faz) }
          else st1
        transitLoop ctx flight targetName initial_target_alt initial_target_az distance_nm
          rest (idx + 1) st2
      else
        transitLoop ctx flight targetName initial_target_alt initial_target_az distance_nm
          rest (idx + 1) { st with count := st.count + 1, targetPos := tp }

/-- The scan state before the loop in the non-test path. -/
def initial_scan_state (ctx : ScanCtx) : ScanState :=
  { minSep := none, response := none, count := 0, targetPos := ctx.targInit,
    stoppedAt := none }

/-- The scan part of `check_transit` with `test_mode = False`: the loop run
over the whole window from the initial state. -/
def check_transit_scan (flight : Flight) (window_time : List ℝ) (ctx : ScanCtx)
    (targetName : String) (initial_target_alt initial_target_az distance_nm : ℝ) :
    ScanState :=
  transitLoop ctx flight targetName initial_target_alt initial_target_az distance_nm
    window_time 0 (initial_scan_state ctx)

/-- `check_transit` itself. -/
def check_transit (flight : Flight) (window_time : List ℝ) (ctx : ScanCtx)
    (test_mode : Bool) (observer_lat observer_lon : ℝ) (targetName : String) :
    TransitResponse :=
  let initial_target_alt := pyRound ctx.targInit.1 2
  let initial_target_az := pyRound ctx.targInit.2 2
  let distance_nm := observer_distance_nm observer_lat observer_lon
    flight.latitude flight.longitude
  let current_alt := ctx.currentAltAz.1
  let current_az := ctx.currentAltAz.2
  let current_alt_diff := |current_alt - initial_target_alt|
  let current_az_diff := |current_az - initial_target_az|
  let current_angular_sep := calculate_angular_separation current_alt_diff current_az_diff
  let st0 : ScanState :=
    if test_mode then
      let alt_diff := |current_alt - ctx.targInit.1|
      let az_diff := |current_az - ctx.targInit.2|
      let angular_sep := calculate_angular_separation alt_diff az_diff
      { minSep := some angular_sep
        response := if 0 < current_alt then
            some (mkResponse flight targetName initial_target_alt initial_target_az
              distance_nm alt_diff az_diff angular_sep (some 0) current_alt current_az)
          else none
        count := 0
        targetPos := ctx.targInit
        stoppedAt := none }
    else initial_scan_state ctx
  let final := transitLoop ctx flight targetName initial_target_alt initial_target_az
    distance_nm window_time 0 st0
  match final.response with
  | some r =>
      if r.is_possible_transit = 0 then
        { r with plane_alt := pyRound current_alt 2
                 plane_az := pyRound current_az 2
                 time := none
                 alt_diff := pyRound current_alt_diff 3
                 az_diff := pyRound current_az_diff 3
                 angular_separation := pyRound current_angular_sep 3 }
      else r
  | none =>
      { id := flight.name
        aircraft_type := flight.aircraft_type
        fa_flight_id := flight.fa_flight_id
        origin := flight.origin
        destination := flight.destination
        alt_diff := pyRound current_alt_diff 3
        az_diff := pyRound current_az_diff 3
        angular_separation := pyRound current_angular_sep 3
        time := none
        target_alt := initial_target_alt
        plane_alt := pyRound current_alt 2
        target_az := initial_target_az
        plane_az := pyRound current_az 2
        is_possible_transit := 0
        possibility_level := PossibilityLevel.UNLIKELY
        elevation_change := CHANGE_ELEVATION flight.elevation_change
        direction := flight.direction
        target := targetName
        latitude := flight.latitude
        longitude := flight.longitude
        aircraft_elevation := flight.elevation
        aircraft_elevation_feet := flight.elevation_feet
        distance_nm := pyRound distance_nm 1 }

/-! #### C2: well-formedness of the records `check_transit` returns -/

/-- Invariant of every response recorded during the scan. -/
def GoodResp (r : TransitResponse) : Prop :=
  0 ≤ r.alt_diff ∧ 0 ≤ r.az_diff ∧
  (r.is_possible_transit = 0 ∨ r.is_possible_transit = 1) ∧
  (r.is_possible_transit = 0 → r.possibility_level = PossibilityLevel.UNLIKELY) ∧
  (r.is_possible_transit = 1 →
    ∃ s, 0 ≤ s ∧ s ≤ 6 ∧ r.possibility_level = get_possibility_level s ∧
      r.angular_separation = pyRound s 3 ∧ r.time ≠ none)

lemma mkResponse_good (flight : Flight) (tname : String) (ita itz dnm : ℝ)
    {a z : ℝ} (ha : 0 ≤ a) (hz : 0 ≤ z) {t : Option ℝ} (ht : t ≠ none)
    (pa pz : ℝ) :
    GoodResp (mkResponse flight tname ita itz dnm a z
      (calculate_angular_separation a z) t pa pz) := by
  have hs : 0 ≤ calculate_angular_separation a z := sep_nonneg a z
  refine ⟨pyRound_nonneg 3 ha, pyRound_nonneg 3 hz, ?_, ?_, ?_⟩
  · unfold mkResponse
    dsimp only
    split_ifs <;> simp
  · intro h0
    unfold mkResponse at h0 ⊢
    dsimp only at h0 ⊢
    split_ifs at h0 with hle
    · exact absurd h0 (by norm_num)
    · exact level_eq_UNLIKELY_iff.mpr (not_le.mp hle)
  · intro h1
    unfold mkResponse at h1 ⊢
    dsimp only at h1 ⊢
    split_ifs at h1 with hle
    · exact ⟨calculate_angular_separation a z, hs, hle, rfl, rfl, ht⟩
    · exact absurd h1 (by norm_num)

lemma transitLoop_good (ctx : ScanCtx) (flight : Flight) (tname : String)
    (ita itz dnm : ℝ) :
    ∀ (tail : List ℝ) (idx : ℕ) (st : ScanState),
      (∀ r, st.response = some r → GoodResp r) →
      ∀ r, (transitLoop ctx flight tname ita itz dnm tail idx st).response = some r →
        GoodResp r := by
  intro tail
  induction tail with
  | nil => intro idx st hst r hr; exact hst r hr
  | cons minute rest ih =>
      intro idx st hst r hr
      rw [transitLoop] at hr
      dsimp only at hr
      split_ifs at hr <;>
        first
          | exact hst r hr
          | (refine ih (idx + 1) _ ?_ r hr
             intro r0 hr0
             dsimp only at hr0
             first
               | exact hst r0 hr0
               | (simp only [Option.some_inj] at hr0
                  subst hr0
                  exact mkResponse_good flight tname ita itz dnm (abs_nonneg _)
                    (abs_nonneg _) (by simp) _ _))

/-- **C2 (amended).** Every record returned by `check_transit` has
`alt_diff ≥ 0` and `az_diff ≥ 0`; its `possibility_level` is UNLIKELY exactly
when `is_possible_transit = 0`, and for possible transits the level is the
classifier applied to the (pre-rounding) angular separation at the recorded
closest-approach sample.  (Recomputing the classifier on the recorded,
overwritten `alt_diff`/`az_diff` fields need not reproduce the tier — see the
counterexample.) -/
theorem check_transit_record_invariants (flight : Flight) (w : List ℝ)
    (ctx : ScanCtx) (tm : Bool) (olat olon : ℝ) (tname : String) :
    0 ≤ (check_transit flight w ctx tm olat olon tname).alt_diff ∧
    0 ≤ (check_transit flight w ctx tm olat olon tname).az_diff ∧
    ((check_transit flight w ctx tm olat olon tname).is_possible_transit = 0 ↔
      (check_transit flight w ctx tm olat olon tname).possibility_level =
        PossibilityLevel.UNLIKELY) ∧
    ((check_transit flight w ctx tm olat olon tname).is_possible_transit = 1 →
      ∃ s, 0 ≤ s ∧ s ≤ 6 ∧
        (check_transit flight w ctx tm olat olon tname).possibility_level =
          get_possibility_level s) := by
  unfold check_transit
  dsimp only
  set st0 : ScanState :=
    if tm = true then
      { minSep := some (calculate_angular_separation |ctx.currentAltAz.1 - ctx.targInit.1|
          |ctx.currentAltAz.2 - ctx.targInit.2|)
        response := if 0 < ctx.currentAltAz.1 then
            some (mkResponse flight tname (pyRound ctx.targInit.1 2) (pyRound ctx.targInit.2 2)
              (observer_distance_nm olat olon flight.latitude flight.longitude)
              |ctx.currentAltAz.1 - ctx.targInit.1| |ctx.currentAltAz.2 - ctx.targInit.2|
              (calculate_angular_separation |ctx.currentAltAz.1 - ctx.targInit.1|
                |ctx.currentAltAz.2 - ctx.targInit.2|)
              (some 0) ctx.currentAltAz.1 ctx.currentAltAz.2)
          else none
        count := 0
        targetPos := ctx.targInit
        stoppedAt := none }
    else initial_scan_state ctx with hst0
  have hst0good : ∀ r, st0.response = some r → GoodResp r := by
    intro r hr
    rw [hst0] at hr
    by_cases htm : tm = true
    · rw [if_pos htm] at hr
      dsimp only at hr
      by_cases halt : 0 < ctx.currentAltAz.1
      · rw [if_pos halt] at hr
        simp only [Option.some_inj] at hr
        subst hr
        exact mkResponse_good flight tname _ _ _ (abs_nonneg _) (abs_nonneg _) (by simp) _ _
      · rw [if_neg halt] at hr
        exact absurd hr (by simp)
    · rw [if_neg htm] at hr
      simp [initial_scan_state] at hr
  have hfinal : ∀ r,
      (transitLoop ctx flight tname (pyRound ctx.targInit.1 2) (pyRound ctx.targInit.2 2)
        (observer_distance_nm olat olon flight.latitude flight.longitude) w 0 st0).response =
        some r → GoodResp r :=
    transitLoop_good ctx flight tname _ _ _ w 0 st0 hst0good
  cases hres : (transitLoop ctx flight tname (pyRound ctx.targInit.1 2)
      (pyRound ctx.targInit.2 2)
      (observer_distance_nm olat olon flight.latitude flight.longitude) w 0 st0).response with
  | none =>
      simp only [hres]
      refine ⟨pyRound_nonneg 3 (abs_nonneg _), pyRound_nonneg 3 (abs_nonneg _), ?_, ?_⟩ <;>
        simp
  | some r0 =>
      have hgood := hfinal r0 hres
      obtain ⟨ha0, hz0, hcases, hunlikely, htransit⟩ := hgood
      simp only [hres]
      by_cases h0 : r0.is_possible_transit = 0
      · rw [if_pos h0]
        refine ⟨pyRound_nonneg 3 (abs_nonneg _), pyRound_nonneg 3 (abs_nonneg _), ?_, ?_⟩
        · exact ⟨fun _ => hunlikely h0, fun _ => h0⟩
        · intro h
          have h1 : r0.is_possible_transit = 1 := h
          exfalso
          omega
      · have h1 : r0.is_possible_transit = 1 := by
          rcases hcases with h | h
          · exact absurd h h0
          · exact h
        rw [if_neg h0]
        obtain ⟨s, hs0, hs6, hlevel, _, _⟩ := htransit h1
        refine ⟨ha0, hz0, ?_, ?_⟩
        · constructor
          · intro h; exact absurd h h0
          · intro hlev
            have h6 : 6 < s := by
              rw [hlevel] at hlev
              exact level_eq_UNLIKELY_iff.mp hlev
            linarith
        · intro _; exact ⟨s, hs0, hs6, hlevel⟩

/-- Witness for C2 (amended) at a concrete input. -/
theorem check_transit_record_invariants_witness :
    0 ≤ (check_transit
      { name := "W", aircraft_type := "A320", fa_flight_id := "", origin := "A",
        destination := "B", latitude := 0, longitude := 0, direction := 0, speed := 0,
        elevation := 10000, elevation_feet := 32808, elevation_change := "-" }
      [] { currentAltAz := (0, 0), altazAt := fun _ _ => (0, 0), targInit := (0, 0),
           targAt := fun _ => (0, 0) } false 0 0 "moon").alt_diff :=
  (check_transit_record_invariants _ [] _ false 0 0 "moon").1

/-! #### Evaluation lemmas for `check_transit` at concrete inputs -/

lemma check_transit_of_scan_none {flight : Flight} {w : List ℝ} {ctx : ScanCtx}
    {olat olon : ℝ} {tname : String}
    (hnone : (check_transit_scan flight w ctx tname (pyRound ctx.targInit.1 2)
      (pyRound ctx.targInit.2 2)
      (observer_distance_nm olat olon flight.latitude flight.longitude)).response = none) :
    check_transit flight w ctx false olat olon tname =
      { id := flight.name
        aircraft_type := flight.aircraft_type
        fa_flight_id := flight.fa_flight_id
        origin := flight.origin
        destination := flight.destination
        alt_diff := pyRound |ctx.currentAltAz.1 - pyRound ctx.targInit.1 2| 3
        az_diff := pyRound |ctx.currentAltAz.2 - pyRound ctx.targInit.2 2| 3
        angular_separation := pyRound (calculate_angular_separation
          |ctx.currentAltAz.1 - pyRound ctx.targInit.1 2|
          |ctx.currentAltAz.2 - pyRound ctx.targInit.2 2|) 3
        time := none
        target_alt := pyRound ctx.targInit.1 2
        plane_alt := pyRound ctx.currentAltAz.1 2
        target_az := pyRound ctx.targInit.2 2
        plane_az := pyRound ctx.currentAltAz.2 2
        is_possible_transit := 0
        possibility_level := PossibilityLevel.UNLIKELY
        elevation_change := CHANGE_ELEVATION flight.elevation_change
        direction := flight.direction
        target := tname
        latitude := flight.latitude
        longitude := flight.longitude
        aircraft_elevation := flight.elevation
        aircraft_elevation_feet := flight.elevation_feet
        distance_nm := pyRound (observer_distance_nm olat olon
          flight.latitude flight.longitude) 1 } := by
  unfold check_transit_scan at hnone
  unfold check_transit
  dsimp only
  rw [if_neg (by decide : ¬ (false = true))]
  rw [hnone]

lemma check_transit_of_scan_some {flight : Flight} {w : List ℝ} {ctx : ScanCtx}
    {olat olon : ℝ} {tname : String} {r0 : TransitResponse}
    (hsome : (check_transit_scan flight w ctx tname (pyRound ctx.targInit.1 2)
      (pyRound ctx.targInit.2 2)
      (observer_distance_nm olat olon flight.latitude flight.longitude)).response = some r0)
    (h0 : r0.is_possible_transit = 0) :
    check_transit flight w ctx false olat olon tname =
      { r0 with
          plane_alt := pyRound ctx.currentAltAz.1 2
          plane_az := pyRound ctx.currentAltAz.2 2
          time := none
          alt_diff := pyRound |ctx.currentAltAz.1 - pyRound ctx.targInit.1 2| 3
          az_diff := pyRound |ctx.currentAltAz.2 - pyRound ctx.targInit.2 2| 3
          angular_separation := pyRound (calculate_angular_separation
            |ctx.currentAltAz.1 - pyRound ctx.targInit.1 2|
            |ctx.currentAltAz.2 - pyRound ctx.targInit.2 2|) 3 } := by
  unfold check_transit_scan at hsome
  unfold check_transit
  dsimp only
  rw [if_neg (by decide : ¬ (false = true))]
  rw [hsome]
  dsimp only
  rw [if_pos h0]

/-- The aircraft used by the concrete evaluations. -/
def cexFlight : Flight :=
  { name := "CEX", aircraft_type := "A320", fa_flight_id := "", origin := "A",
    destination := "B", latitude := 0, longitude := 0, direction := 0, speed := 0,
    elevation := 10000, elevation_feet := 32808, elevation_change := "-" }

/-- Geometry for the C2 counterexample: the aircraft sits below the horizon
(altitude −1°) 5° of separation away from the target for the whole window. -/
def cexCtxC2 : ScanCtx :=
  { currentAltAz := (-1, 10)
    altazAt := fun _ _ => (-1, 10)
    targInit := (2, 14)
    targAt := fun _ => (2, 14) }

lemma cexCtxC2_scan_none (ita itz dnm : ℝ) :
    (check_transit_scan cexFlight [0] cexCtxC2 "moon" ita itz dnm).response = none := by
  unfold check_transit_scan
  simp only [transitLoop]
  norm_num [cexCtxC2, initial_scan_state, ltMin]

/-- **C2 counterexample.** A concrete `check_transit` run (aircraft below the
horizon for the whole window, currently 5° from the target) returns a record
whose recorded tier is UNLIKELY while the classifier recomputed on the
recorded `alt_diff = 3`, `az_diff = 4` yields LOW: the tier is *not* a
function of the recorded differences. -/
theorem check_transit_recompute_cex :
    (check_transit cexFlight [0] cexCtxC2 false 0 0 "moon").possibility_level =
      PossibilityLevel.UNLIKELY ∧
    (check_transit cexFlight [0] cexCtxC2 false 0 0 "moon").alt_diff = 3 ∧
    (check_transit cexFlight [0] cexCtxC2 false 0 0 "moon").az_diff = 4 ∧
    get_possibility_level (calculate_angular_separation
      (check_transit cexFlight [0] cexCtxC2 false 0 0 "moon").alt_diff
      (check_transit cexFlight [0] cexCtxC2 false 0 0 "moon").az_diff) =
      PossibilityLevel.LOW ∧
    PossibilityLevel.LOW ≠ PossibilityLevel.UNLIKELY := by
  have heq := @check_transit_of_scan_none cexFlight [0] cexCtxC2 0 0 "moon"
    (cexCtxC2_scan_none _ _ _)
  have e2 : pyRound (2 : ℝ) 2 = 2 := pyRound_eq_self (m := 200) (by norm_num)
  have e14 : pyRound (14 : ℝ) 2 = 14 := pyRound_eq_self (m := 1400) (by norm_num)
  have ed1 : |(-1 : ℝ) - 2| = 3 := by
    rw [show (-1 : ℝ) - 2 = -(3 : ℝ) by norm_num, abs_neg,
      abs_of_nonneg (by norm_num : (0 : ℝ) ≤ 3)]
  have ed2 : |(10 : ℝ) - 14| = 4 := by
    rw [show (10 : ℝ) - 14 = -(4 : ℝ) by norm_num, abs_neg,
      abs_of_nonneg (by norm_num : (0 : ℝ) ≤ 4)]
  have e3 : pyRound (3 : ℝ) 3 = 3 := pyRound_eq_self (m := 3000) (by norm_num)
  have e4 : pyRound (4 : ℝ) 3 = 4 := pyRound_eq_self (m := 4000) (by norm_num)
  have hsep : calculate_angular_separation 3 4 = 5 := by
    unfold calculate_angular_separation
    rw [show (3 : ℝ) ^ 2 + (4 : ℝ) ^ 2 = 5 ^ 2 by norm_num,
      Real.sqrt_sq (by norm_num : (0 : ℝ) ≤ 5)]
  have halt : (check_transit cexFlight [0] cexCtxC2 false 0 0 "moon").alt_diff = 3 := by
    rw [heq]
    show pyRound |cexCtxC2.currentAltAz.1 - pyRound cexCtxC2.targInit.1 2| 3 = 3
    dsimp only [cexCtxC2]
    rw [e2, ed1, e3]
  have haz : (check_transit cexFlight [0] cexCtxC2 false 0 0 "moon").az_diff = 4 := by
    rw [heq]
    show pyRound |cexCtxC2.currentAltAz.2 - pyRound cexCtxC2.targInit.2 2| 3 = 4
    dsimp only [cexCtxC2]
    rw [e14, ed2, e4]
  refine ⟨by rw [heq], halt, haz, ?_, by norm_num [PossibilityLevel.LOW, PossibilityLevel.UNLIKELY]⟩
  rw [halt, haz, hsep]
  exact level_eq_LOW_iff.mpr (by norm_num)

/-! #### C10: azimuth difference has no 360° wraparound -/

/-- Geometry for the C10 evaluation: aircraft and target at equal altitude
30° above the horizon, azimuths 359.6° and 0.5° — 0.9° apart on the compass
circle. -/
def cexCtxC10 : ScanCtx :=
  { currentAltAz := (30, 359.6)
    altazAt := fun _ _ => (30, 359.6)
    targInit := (30, 0.5)
    targAt := fun _ => (30, 0.5) }

lemma cexCtxC10_scan (ita itz dnm : ℝ) :
    (check_transit_scan cexFlight [0] cexCtxC10 "moon" ita itz dnm).response =
      some (mkResponse cexFlight "moon" ita itz dnm |(30 : ℝ) - 30| |(359.6 : ℝ) - 0.5|
        (calculate_angular_separation |(30 : ℝ) - 30| |(359.6 : ℝ) - 0.5|)
        (some (pyRound 0 3)) 30 359.6) := by
  unfold check_transit_scan
  simp only [transitLoop]
  norm_num [cexCtxC10, initial_scan_state, ltMin]

/-- **C10.** The recorded azimuth difference is the plain absolute difference
with no 360° wraparound: with aircraft and target both 30° above the horizon
at azimuths 359.6° and 0.5° (0.9° apart on the compass circle), the recorded
`az_diff` is `|359.6 − 0.5| = 359.1 > 180`, the candidate is classified
UNLIKELY and `is_possible_transit` is false. -/
theorem check_transit_az_wraparound :
    (check_transit cexFlight [0] cexCtxC10 false 0 0 "moon").az_diff =
      |(359.6 : ℝ) - 0.5| ∧
    (check_transit cexFlight [0] cexCtxC10 false 0 0 "moon").az_diff = 359.1 ∧
    (180 : ℝ) < (check_transit cexFlight [0] cexCtxC10 false 0 0 "moon").az_diff ∧
    360 - |(359.6 : ℝ) - 0.5| < 1 ∧
    cexCtxC10.currentAltAz.1 = cexCtxC10.targInit.1 ∧ (0 : ℝ) < cexCtxC10.currentAltAz.1 ∧
    (check_transit cexFlight [0] cexCtxC10 false 0 0 "moon").possibility_level =
      PossibilityLevel.UNLIKELY ∧
    (check_transit cexFlight [0] cexCtxC10 false 0 0 "moon").is_possible_transit = 0 := by
  have ed0 : |(30 : ℝ) - 30| = 0 := by norm_num
  have ed359 : |(359.6 : ℝ) - 0.5| = 359.1 := by
    rw [show (359.6 : ℝ) - 0.5 = 359.1 by norm_num]
    exact abs_of_nonneg (by norm_num)
  have hsep : calculate_angular_separation 0 359.1 = 359.1 := by
    unfold calculate_angular_separation
    rw [show (0 : ℝ) ^ 2 + (359.1 : ℝ) ^ 2 = 359.1 ^ 2 by ring,
      Real.sqrt_sq (by norm_num : (0 : ℝ) ≤ 359.1)]
  have hsep6 : ¬ calculate_angular_separation |(30 : ℝ) - 30| |(359.6 : ℝ) - 0.5| ≤ 6 := by
    rw [ed0, ed359, hsep]; norm_num
  have h0 : (mkResponse cexFlight "moon" (pyRound cexCtxC10.targInit.1 2)
      (pyRound cexCtxC10.targInit.2 2)
      (observer_distance_nm 0 0 cexFlight.latitude cexFlight.longitude)
      |(30 : ℝ) - 30| |(359.6 : ℝ) - 0.5|
      (calculate_angular_separation |(30 : ℝ) - 30| |(359.6 : ℝ) - 0.5|)
      (some (pyRound 0 3)) 30 359.6).is_possible_transit = 0 := by
    unfold mkResponse
    dsimp only
    rw [if_neg hsep6]
  have heq := @check_transit_of_scan_some cexFlight [0] cexCtxC10 0 0 "moon" _
    (cexCtxC10_scan _ _ _) h0
  have e05 : pyRound (0.5 : ℝ) 2 = 0.5 := pyRound_eq_self (m := 50) (by norm_num)
  have e359 : pyRound (359.1 : ℝ) 3 = 359.1 := pyRound_eq_self (m := 359100) (by norm_num)
  have haz : (check_transit cexFlight [0] cexCtxC10 false 0 0 "moon").az_diff = 359.1 := by
    rw [heq]
    show pyRound |cexCtxC10.currentAltAz.2 - pyRound cexCtxC10.targInit.2 2| 3 = 359.1
    dsimp only [cexCtxC10]
    rw [e05, ed359, e359]
  have hlev : (check_transit cexFlight [0] cexCtxC10 false 0 0 "moon").possibility_level =
      PossibilityLevel.UNLIKELY := by
    rw [heq]
    show get_possibility_level
      (calculate_angular_separation |(30 : ℝ) - 30| |(359.6 : ℝ) - 0.5|) =
        PossibilityLevel.UNLIKELY
    rw [ed0, ed359, hsep]
    exact level_eq_UNLIKELY_iff.mpr (by norm_num)
  refine ⟨by rw [haz, ed359], haz, by rw [haz]; norm_num, by rw [ed359]; norm_num,
    rfl, by norm_num [cexCtxC10], hlev, ?_⟩
  rw [heq]
  exact h0

/-! #### C3: the early-exit heuristic

`sepSeq` is the angular-separation sequence the scan evaluates: the target
position used at sample `i` reflects the update performed every 60 samples
(`effTarget`).  `prefixMin`, `improvesAt` and `streak` describe the running
minimum, the per-sample improvement test and the consecutive-no-improvement
counter. -/

/-- Target position in force at sample index `i` (updated at every positive
multiple of 60 samples, i.e. every simulated minute). -/
def effTarget (ctx : ScanCtx) (w : List ℝ) (i : ℕ) : ℝ × ℝ :=
  if i < 60 then ctx.targInit else ctx.targAt (w.getD (60 * (i / 60)) 0)

/-- The angular-separation sequence of the scan over the window `w`. -/
def sepSeq (ctx : ScanCtx) (flight : Flight) (w : List ℝ) (i : ℕ) : ℝ :=
  calculate_angular_separation
    |(ctx.altazAt (predict_position flight.latitude flight.longitude flight.speed
        flight.direction (w.getD i 0)) (w.getD i 0)).1 - (effTarget ctx w i).1|
    |(ctx.altazAt (predict_position flight.latitude flight.longitude flight.speed
        flight.direction (w.getD i 0)) (w.getD i 0)).2 - (effTarget ctx w i).2|

/-- Minimum of `s` over the first `n` samples (`none` when `n = 0`). -/
def prefixMin (s : ℕ → ℝ) : ℕ → Option ℝ
  | 0 => none
  | n + 1 =>
      match prefixMin s n with
      | none => some (s n)
      | some m => some (min m (s n))

/-- Sample `j` strictly improves the running minimum. -/
def improvesAt (s : ℕ → ℝ) (j : ℕ) : Prop := ltMin (s j) (prefixMin s j)

/-- Value of the consecutive-no-improvement counter on entering sample `k`. -/
def streak (s : ℕ → ℝ) : ℕ → ℕ
  | 0 => 0
  | k + 1 => if improvesAt s k then 0 else streak s k + 1

/-- The early-exit-disabled scan of the spec: the minimum separation over
every sample of the full window. -/
def noEarlyExitScanMin (ctx : ScanCtx) (flight : Flight) (w : List ℝ) : Option ℝ :=
  prefixMin (sepSeq ctx flight w) w.length

lemma effTarget_step (ctx : ScanCtx) (w : List ℝ) (k : ℕ)
    (h : ¬ (0 < k + 1 ∧ (k + 1) % 60 = 0)) :
    effTarget ctx w (k + 1) = effTarget ctx w k := by
  have h2 : (k + 1) % 60 ≠ 0 := by omega
  unfold effTarget
  by_cases h60 : k + 1 < 60
  · rw [if_pos h60, if_pos (by omega : k < 60)]
  · have hk60 : ¬ k < 60 := by omega
    rw [if_neg h60, if_neg hk60]
    have hdiv : 60 * ((k + 1) / 60) = 60 * (k / 60) := by omega
    rw [hdiv]

lemma effTarget_update (ctx : ScanCtx) (w : List ℝ) (k : ℕ)
    (h : 0 < k ∧ k % 60 = 0) :
    effTarget ctx w k = ctx.targAt (w.getD k 0) := by
  unfold effTarget
  rw [if_neg (by omega : ¬ k < 60)]
  have hdiv : 60 * (k / 60) = k := by omega
  rw [hdiv]

lemma streak_le (s : ℕ → ℝ) : ∀ k, streak s k ≤ k := by
  intro k
  induction k with
  | zero => simp [streak]
  | succ k ih =>
      rw [streak]
      split_ifs
      · omega
      · omega

lemma streak_tail (s : ℕ → ℝ) :
    ∀ k c, c ≤ streak s k → ∀ j, k - c ≤ j → j < k → ¬ improvesAt s j := by
  intro k
  induction k with
  | zero => intro c _ j _ hj; omega
  | succ k ih =>
      intro c hc j hj1 hj2
      rw [streak] at hc
      by_cases himp : improvesAt s k
      · rw [if_pos himp] at hc
        omega
      · rw [if_neg himp] at hc
        by_cases hjk : j = k
        · subst hjk; exact himp
        · exact ih (c - 1) (by omega) j (by omega) (by omega)

section Unimodal

variable {s : ℕ → ℝ} {n m : ℕ}

lemma uni_prefix_dec (hdec : ∀ i, i < m → s (i + 1) < s i) :
    ∀ j, j ≤ m → prefixMin s j = if j = 0 then none else some (s (j - 1)) := by
  intro j
  induction j with
  | zero => intro _; simp [prefixMin]
  | succ j ih =>
      intro hj
      rw [prefixMin, ih (by omega)]
      by_cases hj0 : j = 0
      · subst hj0; simp
      · rw [if_neg hj0, if_neg (by omega : ¬ j + 1 = 0)]
        have hlt : s j < s (j - 1) := by
          have := hdec (j - 1) (by omega)
          rwa [show j - 1 + 1 = j by omega] at this
        simp [min_eq_right (le_of_lt hlt)]

lemma uni_improves (hdec : ∀ i, i < m → s (i + 1) < s i) :
    ∀ j, j ≤ m → improvesAt s j := by
  intro j hj
  unfold improvesAt
  rw [uni_prefix_dec hdec j hj]
  by_cases hj0 : j = 0
  · subst hj0; simp [ltMin]
  · rw [if_neg hj0]
    show s j < s (j - 1)
    have := hdec (j - 1) (by omega)
    rwa [show j - 1 + 1 = j by omega] at this

lemma uni_streak_zero (hdec : ∀ i, i < m → s (i + 1) < s i) :
    ∀ b, b ≤ m + 1 → streak s b = 0 := by
  intro b
  induction b with
  | zero => intro _; rfl
  | succ b _ =>
      intro hb
      rw [streak, if_pos (uni_improves hdec b (by omega))]

lemma uni_s_m_le (hinc : ∀ i, m ≤ i → i + 1 < n → s i < s (i + 1)) :
    ∀ j, m ≤ j → j < n → s m ≤ s j := by
  have key : ∀ d, m + d < n → s m ≤ s (m + d) := by
    intro d
    induction d with
    | zero => intro _; exact le_refl _
    | succ d ih =>
        intro hd
        have h1 : s m ≤ s (m + d) := ih (by omega)
        have h2 : s (m + d) < s (m + d + 1) := hinc (m + d) (by omega) (by omega)
        calc s m ≤ s (m + d) := h1
          _ ≤ s (m + d + 1) := le_of_lt h2
  intro j hj1 hj2
  have := key (j - m) (by omega)
  rwa [show m + (j - m) = j by omega] at this

lemma uni_prefix_ge (hm : m < n) (hdec : ∀ i, i < m → s (i + 1) < s i)
    (hinc : ∀ i, m ≤ i → i + 1 < n → s i < s (i + 1)) :
    ∀ k, m < k → k ≤ n → prefixMin s k = some (s m) := by
  intro k
  induction k with
  | zero => intro h _; omega
  | succ k ih =>
      intro hk1 hk2
      by_cases hkm : k = m
      · subst hkm
        rw [prefixMin, uni_prefix_dec hdec k (le_refl k)]
        by_cases hk0 : k = 0
        · subst hk0; rfl
        · rw [if_neg hk0]
          have hlt : s k < s (k - 1) := by
            have := hdec (k - 1) (by omega)
            rwa [show k - 1 + 1 = k by omega] at this
          simp [min_eq_right (le_of_lt hlt)]
      · have hmk : m < k := by omega
        rw [prefixMin, ih hmk (by omega)]
        have hle : s m ≤ s k := uni_s_m_le hinc k (by omega) (by omega)
        simp [min_eq_left hle]

end Unimodal

lemma transitLoop_scan_spec (ctx : ScanCtx) (flight : Flight) (tname : String)
    (ita itz dnm : ℝ) (w : List ℝ) :
    ∀ (tail : List ℝ) (idx : ℕ) (st : ScanState),
      tail = w.drop idx → idx ≤ w.length →
      st.stoppedAt = none →
      st.minSep = prefixMin (sepSeq ctx flight w) idx →
      st.count = streak (sepSeq ctx flight w) idx →
      st.count ≤ 180 →
      st.targetPos = (if idx = 0 then ctx.targInit else effTarget ctx w (idx - 1)) →
      ((transitLoop ctx flight tname ita itz dnm tail idx st).stoppedAt = none ∧
        (transitLoop ctx flight tname ita itz dnm tail idx st).minSep =
          prefixMin (sepSeq ctx flight w) w.length) ∨
      (∃ b, idx ≤ b ∧ b < w.length ∧
        (transitLoop ctx flight tname ita itz dnm tail idx st).stoppedAt = some b ∧
        streak (sepSeq ctx flight w) b = 180 ∧
        (transitLoop ctx flight tname ita itz dnm tail idx st).minSep =
          prefixMin (sepSeq ctx flight w) b) := by
  intro tail
  induction tail with
  | nil =>
      intro idx st htail hlen hstop hmin hcount hcle htarget
      left
      have hge : w.length ≤ idx := by
        rw [← List.drop_eq_nil_iff, ← htail]
      have hidx : idx = w.length := le_antisymm hlen hge
      rw [transitLoop]
      exact ⟨hstop, by rw [hmin, hidx]⟩
  | cons minute rest ih =>
      intro idx st htail hlen hstop hmin hcount hcle htarget
      have hdrop : w.drop idx = minute :: rest := htail.symm
      have hidxlt : idx < w.length := by
        have := congrArg List.length hdrop
        rw [List.length_drop, List.length_cons] at this
        omega
      have hget2 : w[idx]? = some minute := by
        have h := List.getElem?_drop w idx 0
        rw [hdrop] at h
        simpa using h.symm
      have hget : w.getD idx 0 = minute := by
        rw [List.getD_eq_getElem?_getD, hget2]
        rfl
      have hrest : rest = w.drop (idx + 1) := by
        have h := List.drop_drop 1 idx w
        rw [hdrop] at h
        simpa [Nat.add_comm] using h
      have htp : (if 0 < idx ∧ idx % 60 = 0 then ctx.targAt minute else st.targetPos) =
          effTarget ctx w idx := by
        by_cases hcond : 0 < idx ∧ idx % 60 = 0
        · rw [if_pos hcond, ← hget, effTarget_update ctx w idx hcond]
        · rw [if_neg hcond, htarget]
          by_cases h0 : idx = 0
          · subst h0
            rw [if_pos rfl]
            unfold effTarget
            rw [if_pos (by norm_num : (0 : ℕ) < 60)]
          · rw [if_neg h0]
            obtain ⟨k, hk⟩ : ∃ k, idx = k + 1 := ⟨idx - 1, by omega⟩
            subst hk
            simp only [Nat.add_sub_cancel]
            exact (effTarget_step ctx w k hcond).symm
      have hsep : calculate_angular_separation
          |(ctx.altazAt (predict_position flight.latitude flight.longitude flight.speed
              flight.direction minute) minute).1 - (effTarget ctx w idx).1|
          |(ctx.altazAt (predict_position flight.latitude flight.longitude flight.speed
              flight.direction minute) minute).2 - (effTarget ctx w idx).2| =
          sepSeq ctx flight w idx := by
        unfold sepSeq
        rw [hget]
      rw [transitLoop]
      dsimp only
      rw [htp, hsep]
      by_cases hbreak : 180 ≤ st.count
      · rw [if_pos hbreak]
        right
        refine ⟨idx, le_refl idx, hidxlt, rfl, ?_, by rw [hmin]⟩
        omega
      · rw [if_neg hbreak]
        by_cases himp : ltMin (sepSeq ctx flight w idx) st.minSep
        · rw [if_pos himp]
          have himpAt : improvesAt (sepSeq ctx flight w) idx := by
            unfold improvesAt
            rw [← hmin]
            exact himp
          have hpm : prefixMin (sepSeq ctx flight w) (idx + 1) =
              some (sepSeq ctx flight w idx) := by
            rw [prefixMin]
            cases hpmi : prefixMin (sepSeq ctx flight w) idx with
            | none => rfl
            | some mv =>
                have hlt : sepSeq ctx flight w idx < mv := by
                  have := himpAt
                  unfold improvesAt at this
                  rw [hpmi] at this
                  exact this
                simp [min_eq_right (le_of_lt hlt)]
          have hstreak1 : streak (sepSeq ctx flight w) (idx + 1) = 0 := by
            rw [streak, if_pos himpAt]
          have happly : ∀ st2 : ScanState,
              st2.stoppedAt = st.stoppedAt →
              st2.minSep = some (sepSeq ctx flight w idx) →
              st2.count = 0 →
              st2.targetPos = effTarget ctx w idx →
              ((transitLoop ctx flight tname ita itz dnm rest (idx + 1) st2).stoppedAt =
                  none ∧
                (transitLoop ctx flight tname ita itz dnm rest (idx + 1) st2).minSep =
                  prefixMin (sepSeq ctx flight w) w.length) ∨
              (∃ b, idx ≤ b ∧ b < w.length ∧
                (transitLoop ctx flight tname ita itz dnm rest (idx + 1) st2).stoppedAt =
                  some b ∧
                streak (sepSeq ctx flight w) b = 180 ∧
                (transitLoop ctx flight tname ita itz dnm rest (idx + 1) st2).minSep =
                  prefixMin (sepSeq ctx flight w) b) := by
            intro st2 h1 h2 h3 h4
            have := ih (idx + 1) st2 hrest (by omega) (by rw [h1, hstop])
              (by rw [h2, hpm]) (by rw [h3, hstreak1]) (by omega)
              (by rw [h4, if_neg (by omega : ¬ idx + 1 = 0)]; simp)
            rcases this with hL | ⟨b, hb1, hb2, hb3, hb4, hb5⟩
            · exact Or.inl hL
            · exact Or.inr ⟨b, by omega, hb2, hb3, hb4, hb5⟩
          by_cases hfa : 0 < (ctx.altazAt (predict_position flight.latitude flight.longitude
              flight.speed flight.direction minute) minute).1
          · rw [if_pos hfa]
            exact happly _ rfl rfl rfl rfl
          · rw [if_neg hfa]
            exact happly _ rfl rfl rfl rfl
        · rw [if_neg himp]
          have hnimpAt : ¬ improvesAt (sepSeq ctx flight w) idx := by
            unfold improvesAt
            rw [← hmin]
            exact himp
          have hpm : prefixMin (sepSeq ctx flight w) (idx + 1) =
              prefixMin (sepSeq ctx flight w) idx := by
            rw [prefixMin]
            cases hpmi : prefixMin (sepSeq ctx flight w) idx with
            | none =>
                exfalso
                apply himp
                rw [hmin, hpmi]
                trivial
            | some mv =>
                have hnlt : ¬ sepSeq ctx flight w idx < mv := by
                  intro hc
                  apply hnimpAt
                  unfold improvesAt
                  rw [hpmi]
                  exact hc
                simp [min_eq_left (not_lt.mp hnlt)]
          have hstreak1 : streak (sepSeq ctx flight w) (idx + 1) =
              streak (sepSeq ctx flight w) idx + 1 := by
            rw [streak, if_neg hnimpAt]
          have := ih (idx + 1)
            { st with count := st.count + 1, targetPos := effTarget ctx w idx }
            hrest (by omega) hstop (by rw [hpm]; exact hmin)
            (by rw [hstreak1]; dsimp only; omega) (by dsimp only; omega)
            (by rw [if_neg (by omega : ¬ idx + 1 = 0)]; simp)
          rcases this with hL | ⟨b, hb1, hb2, hb3, hb4, hb5⟩
          · exact Or.inl hL
          · exact Or.inr ⟨b, by omega, hb2, hb3, hb4, hb5⟩

/-- **C3.** (i) On any input whose angular-separation sequence over the
search window has a single (unimodal) global minimum at sample `m` — strictly
decreasing into `m`, strictly increasing after it — the heuristic-enabled scan
of `check_transit` finds exactly the minimum separation that scanning every
sample of the full window finds, never a larger one, namely the separation at
`m`.  (ii) On every input, the scan stops early only after the count of
consecutive samples that failed to improve the running minimum reaches
exactly 180 (three minutes of 1-second samples). -/
theorem check_transit_early_exit :
    (∀ (ctx : ScanCtx) (flight : Flight) (tname : String) (ita itz dnm : ℝ)
      (w : List ℝ) (m : ℕ),
      m < w.length →
      (∀ i, i < m → sepSeq ctx flight w (i + 1) < sepSeq ctx flight w i) →
      (∀ i, m ≤ i → i + 1 < w.length → sepSeq ctx flight w i < sepSeq ctx flight w (i + 1)) →
      (check_transit_scan flight w ctx tname ita itz dnm).minSep =
        noEarlyExitScanMin ctx flight w ∧
      noEarlyExitScanMin ctx flight w = some (sepSeq ctx flight w m)) ∧
    (∀ (ctx : ScanCtx) (flight : Flight) (tname : String) (ita itz dnm : ℝ)
      (w : List ℝ) (b : ℕ),
      (check_transit_scan flight w ctx tname ita itz dnm).stoppedAt = some b →
      180 ≤ b ∧ streak (sepSeq ctx flight w) b = 180 ∧
      ∀ j, b - 180 ≤ j → j < b → ¬ improvesAt (sepSeq ctx flight w) j) := by
  have base : ∀ (ctx : ScanCtx) (flight : Flight) (tname : String) (ita itz dnm : ℝ)
      (w : List ℝ),
      ((check_transit_scan flight w ctx tname ita itz dnm).stoppedAt = none ∧
        (check_transit_scan flight w ctx tname ita itz dnm).minSep =
          prefixMin (sepSeq ctx flight w) w.length) ∨
      (∃ b, 0 ≤ b ∧ b < w.length ∧
        (check_transit_scan flight w ctx tname ita itz dnm).stoppedAt = some b ∧
        streak (sepSeq ctx flight w) b = 180 ∧
        (check_transit_scan flight w ctx tname ita itz dnm).minSep =
          prefixMin (sepSeq ctx flight w) b) := by
    intro ctx flight tname ita itz dnm w
    exact transitLoop_scan_spec ctx flight tname ita itz dnm w w 0
      (initial_scan_state ctx) (List.drop_zero w).symm (by omega) rfl rfl rfl
      (by simp [initial_scan_state]) (by simp [initial_scan_state])
  constructor
  · intro ctx flight tname ita itz dnm w m hm hdec hinc
    have hfull : prefixMin (sepSeq ctx flight w) w.length =
        some (sepSeq ctx flight w m) :=
      uni_prefix_ge hm hdec hinc w.length (by omega) (le_refl _)
    rcases base ctx flight tname ita itz dnm w with ⟨_, h2⟩ | ⟨b, _, hb2, _, hb4, hb5⟩
    · exact ⟨h2, hfull⟩
    · have hmb : m < b := by
        by_contra hc
        have h0 : streak (sepSeq ctx flight w) b = 0 :=
          uni_streak_zero hdec b (by omega)
        omega
      have hbmin : prefixMin (sepSeq ctx flight w) b = some (sepSeq ctx flight w m) :=
        uni_prefix_ge hm hdec hinc b hmb (by omega)
      refine ⟨?_, hfull⟩
      rw [hb5, hbmin, ← hfull]
      rfl
  · intro ctx flight tname ita itz dnm w b hb
    rcases base ctx flight tname ita itz dnm w with ⟨h1, _⟩ | ⟨b2, _, _, hb3, hb4, _⟩
    · rw [h1] at hb; exact absurd hb (by simp)
    · rw [hb3] at hb
      have hbb : b2 = b := by simpa using hb
      subst hbb
      have hle := streak_le (sepSeq ctx flight w) b2
      exact ⟨by omega, hb4, streak_tail (sepSeq ctx flight w) b2 180 (by omega)⟩

/-- Witness for C3 at a concrete input (single-sample window, trivially
unimodal at `m = 0`). -/
theorem check_transit_early_exit_witness :
    ((0 : ℕ) < ([0] : List ℝ).length) ∧
    (check_transit_scan cexFlight [0] cexCtxC2 "moon" 0 0 0).minSep =
      noEarlyExitScanMin cexCtxC2 cexFlight [0] :=
  ⟨by norm_num,
   (check_transit_early_exit.1 cexCtxC2 cexFlight "moon" 0 0 0 [0] 0 (by norm_num)
     (fun i hi => absurd hi (Nat.not_lt_zero i))
     (fun i _ hi => absurd hi (by norm_num))).1⟩

/-! ### `src/flight_data.py` — `sort_results` (C5)

`_custom_sort` builds the key
`(-(is_possible_transit or 0), |alt_diff| + |az_diff|, time or 999, id)` and
Python `sorted` orders ascending lexicographically.  (`x or 0` is the
identity on the engine's numeric fields: it maps `0` to `0` and non-zero
values to themselves.) -/

/-- `total_diff = abs(alt_diff) + abs(az_diff)`. -/
def sortKeyTotalDiff (a : TransitResponse) : ℝ := |a.alt_diff| + |a.az_diff|

/-- `time_val = a["time"] if a["time"] is not None else 999`. -/
def sortKeyTime (a : TransitResponse) : ℝ :=
  match a.time with
  | some t => t
  | none => 999

/-- The `_custom_sort` key, as a lexicographically ordered tuple. -/
def sortKey (a : TransitResponse) : ℤ ×ₗ (ℝ ×ₗ (ℝ ×ₗ String)) :=
  toLex (-a.is_possible_transit, toLex (sortKeyTotalDiff a, toLex (sortKeyTime a, a.id)))

/-- The ordering `sorted` uses: ascending in the key. -/
def sortRel (a b : TransitResponse) : Prop := sortKey a ≤ sortKey b

/-- `sort_results` (a stable sort by `_custom_sort`; `insertionSort` is
stable, like Python's sort). -/
def sort_results (data : List TransitResponse) : List TransitResponse :=
  List.insertionSort sortRel data

instance : IsTotal TransitResponse sortRel :=
  ⟨fun a b => le_total (sortKey a) (sortKey b)⟩

instance : IsTrans TransitResponse sortRel :=
  ⟨fun _ _ _ hab hbc => le_trans hab hbc⟩

/-- **C5.** `sort_results` returns a permutation of its input sorted by:
possible transits first (descending `is_possible_transit`), then ascending
combined angular difference `|alt_diff| + |az_diff|`, then ascending
minutes-to-closest-approach (`999` for null), then aircraft id as the final
tiebreak — for every input list. -/
theorem sort_results_contract (data : List TransitResponse) :
    (sort_results data).Sorted sortRel ∧
    (sort_results data).Perm data ∧
    (∀ a b : TransitResponse, sortRel a b ↔
      (b.is_possible_transit < a.is_possible_transit ∨
        (a.is_possible_transit = b.is_possible_transit ∧
          (sortKeyTotalDiff a < sortKeyTotalDiff b ∨
            (sortKeyTotalDiff a = sortKeyTotalDiff b ∧
              (sortKeyTime a < sortKeyTime b ∨
                (sortKeyTime a = sortKeyTime b ∧ a.id ≤ b.id))))))) := by
  refine ⟨List.sorted_insertionSort sortRel data, List.perm_insertionSort sortRel data, ?_⟩
  intro a b
  unfold sortRel sortKey
  rw [Prod.Lex.le_iff]
  dsimp only
  rw [Prod.Lex.le_iff]
  dsimp only
  rw [Prod.Lex.le_iff]
  dsimp only
  rw [neg_lt_neg_iff, neg_inj]

/-! ### `app.py` — `calculate_adaptive_interval` (C6) -/

/-- The priority filter: `is_possible_transit == 1` and `possibility_level`
in `[HIGH.value, MEDIUM.value]`. -/
def isPriorityTransit (f : TransitResponse) : Prop :=
  f.is_possible_transit = 1 ∧
    (f.possibility_level = PossibilityLevel.HIGH ∨
      f.possibility_level = PossibilityLevel.MEDIUM)

/-- Python `min` on a list (`none` on the empty list, on which Python
raises). -/
def pyMin : List ℝ → Option ℝ
  | [] => none
  | t :: ts => some (ts.foldl min t)

/-- `calculate_adaptive_interval` from `app.py`.  `f.get("time", 999)` is
modelled as `f.time.getD 999`; engine-produced records with
`is_possible_transit = 1` always carry a numeric `time`
(`check_transit_record_invariants`), which is the case the function is
specified on. -/
def calculate_adaptive_interval (flights : List TransitResponse) : ℤ :=
  if flights.isEmpty then 600
  else
    let priority_transits :=
      (flights.filter (fun f => decide (isPriorityTransit f))).map
        (fun f => f.time.getD 999)
    match pyMin priority_transits with
    | none => 600
    | some closest_transit_time =>
        if closest_transit_time < 2 then 30
        else if closest_transit_time < 5 then 60
        else if closest_transit_time < 10 then 120
        else 600

lemma foldl_min_spec : ∀ (ts : List ℝ) (t : ℝ),
    (ts.foldl min t ≤ t ∧ ∀ x ∈ ts, ts.foldl min t ≤ x) ∧
      (ts.foldl min t = t ∨ ts.foldl min t ∈ ts) := by
  intro ts
  induction ts with
  | nil => intro t; exact ⟨⟨le_refl t, by simp⟩, Or.inl rfl⟩
  | cons u us ih =>
      intro t
      have h := ih (min t u)
      refine ⟨⟨?_, ?_⟩, ?_⟩
      · exact le_trans h.1.1 (min_le_left t u)
      · intro x hx
        rcases List.mem_cons.mp hx with hxu | hxus
        · subst hxu
          exact le_trans h.1.1 (min_le_right t x)
        · exact h.1.2 x hxus
      · rcases h.2 with heq | hmem
        · rcases le_total t u with htu | hut
          · rw [List.foldl_cons, heq, min_eq_left htu]
            exact Or.inl rfl
          · rw [List.foldl_cons, heq, min_eq_right hut]
            exact Or.inr (List.mem_cons_self u us)
        · exact Or.inr (List.mem_cons_of_mem u hmem)

lemma pyMin_eq_of_minimal {l : List ℝ} {a : ℝ} (hmem : a ∈ l)
    (hmin : ∀ x ∈ l, a ≤ x) : pyMin l = some a := by
  cases l with
  | nil => simp at hmem
  | cons t ts =>
      have h := foldl_min_spec ts t
      have hle : ts.foldl min t ≤ a := by
        rcases List.mem_cons.mp hmem with ha | ha
        · subst ha; exact h.1.1
        · exact h.1.2 a ha
      have hge : a ≤ ts.foldl min t := by
        rcases h.2 with heq | hmem2
        · rw [heq]; exact hmin t (List.mem_cons_self t ts)
        · exact hmin _ (List.mem_cons_of_mem t hmem2)
      rw [pyMin]
      rw [le_antisymm hle hge]

/-- **C6.** The recommended poll interval is a function of the single closest
HIGH/MEDIUM possible-transit candidate: with no such candidate the interval is
600 s regardless of LOW candidates; with one, letting `t₀` be its
minutes-to-approach (minimal among all such candidates), the interval is 30 s
below 2 min, 60 s below 5 min, 120 s below 10 min and 600 s otherwise. -/
theorem adaptive_interval_contract (flights : List TransitResponse) :
    ((∀ f ∈ flights, ¬ isPriorityTransit f) →
      calculate_adaptive_interval flights = 600) ∧
    (∀ f0 ∈ flights, ∀ t0 : ℝ, isPriorityTransit f0 → f0.time = some t0 →
      (∀ f ∈ flights, isPriorityTransit f → ∃ t, f.time = some t ∧ t0 ≤ t) →
      calculate_adaptive_interval flights =
        if t0 < 2 then 30 else if t0 < 5 then 60 else if t0 < 10 then 120 else 600) := by
  constructor
  · intro hnone
    unfold calculate_adaptive_interval
    by_cases hemp : flights.isEmpty
    · rw [if_pos hemp]
    · rw [if_neg hemp]
      have hfilter : flights.filter (fun f => decide (isPriorityTransit f)) = [] := by
        rw [List.filter_eq_nil_iff]
        intro f hf
        simp only [decide_eq_true_eq]
        exact hnone f hf
      rw [hfilter]
      rfl
  · intro f0 hf0 t0 hprio htime hminimal
    unfold calculate_adaptive_interval
    rw [if_neg (by simp [List.isEmpty_iff]; intro h; subst h; simp at hf0)]
    have hmem : t0 ∈ (flights.filter (fun f => decide (isPriorityTransit f))).map
        (fun f => f.time.getD 999) := by
      refine List.mem_map.mpr ⟨f0, ?_, by rw [htime]; rfl⟩
      rw [List.mem_filter]
      exact ⟨hf0, by simp only [decide_eq_true_eq]; exact hprio⟩
    have hall : ∀ x ∈ (flights.filter (fun f => decide (isPriorityTransit f))).map
        (fun f => f.time.getD 999), t0 ≤ x := by
      intro x hx
      obtain ⟨f, hf, hfx⟩ := List.mem_map.mp hx
      rw [List.mem_filter] at hf
      obtain ⟨t, ht, htle⟩ := hminimal f hf.1 (by simpa using hf.2)
      rw [← hfx, ht]
      exact htle
    dsimp only
    rw [pyMin_eq_of_minimal hmem hall]

/-- A concrete priority candidate for the C6 witness. -/
def c6rec : TransitResponse :=
  { id := "P1", aircraft_type := "A320", fa_flight_id := "", origin := "A",
    destination := "B", alt_diff := 0.2, az_diff := 0.3, angular_separation := 0.361,
    time := some 1, target_alt := 40, plane_alt := 40.2, target_az := 100,
    plane_az := 100.3, is_possible_transit := 1,
    possibility_level := PossibilityLevel.HIGH, elevation_change := some "level",
    direction := 90, target := "moon", latitude := 0, longitude := 0,
    aircraft_elevation := 10000, aircraft_elevation_feet := 32808, distance_nm := 8 }

/-- Witness for C6: a single HIGH candidate 1 minute out gives a 30 s
interval. -/
theorem adaptive_interval_contract_witness :
    calculate_adaptive_interval [c6rec] = 30 := by
  have h := (adaptive_interval_contract [c6rec]).2 c6rec (by simp) 1
    (by constructor
        · rfl
        · exact Or.inl rfl)
    rfl
    (by intro f hf _
        have : f = c6rec := by simpa using hf
        subst this
        exact ⟨1, rfl, le_refl 1⟩)
  rw [h]
  norm_num

/-! ### `src/transit.py` — `get_transits` (C4, C8), with
`parse_fligh_data` from `src/flight_data.py`

The external collaborators of the orchestrator — the weather check, the
`CelestialObject` ephemeris adapter, the live flight feed and the per-pair
scan geometry — enter through `OrchCtx`.  External calls the orchestrator
performs are recorded in an effect trace: the code fetches flight data live
with `get_flight_data` and contains no call to the flight cache, so the trace
can never contain a cache effect. -/

/-- `AreaBoundingBox` from `src/position.py`. -/
structure AreaBoundingBox where
  lat_lower_left : ℝ
  long_lower_left : ℝ
  lat_upper_right : ℝ
  long_upper_right : ℝ

/-- The raw flight dict from the AeroAPI feed, restricted to the fields
`parse_fligh_data` reads.  `groundspeed`/`altitude` are the integers the API
returns (the code's `int(...)` is then the identity). -/
structure RawFlight where
  ident : String
  aircraft_type : Option String
  fa_flight_id : Option String
  origin_city : String
  destination_city : Option String
  latitude : ℝ
  longitude : ℝ
  heading : ℝ
  groundspeed : ℤ
  altitude : ℤ
  altitude_change : String

/-- `parse_fligh_data`: knots → km/h, hundreds of feet → metres and feet,
defaulting the optional fields. -/
def parse_fligh_data (fd : RawFlight) : Flight :=
  { name := fd.ident
    aircraft_type := fd.aircraft_type.getD "N/A"
    fa_flight_id := fd.fa_flight_id.getD ""
    origin := fd.origin_city
    destination := fd.destination_city.getD "N/D"
    latitude := fd.latitude
    longitude := fd.longitude
    direction := fd.heading
    speed := (fd.groundspeed : ℝ) * 1.852
    elevation := (fd.altitude : ℝ) * 0.3048 * 100
    elevation_feet := (fd.altitude : ℝ) * 100
    elevation_change := fd.altitude_change }

/-- External calls made during one orchestration. -/
inductive FetchEffect where
  | weatherFetch
  | flightFetch (bbox : AreaBoundingBox)
  | cacheGet (bbox : AreaBoundingBox)
  | cacheSet (bbox : AreaBoundingBox)

/-- `target_name` argument: `"auto"` or a single target. -/
inductive TargetSel where
  | auto
  | single (name : String)

/-- `np.linspace(0, TOP_MINUTE, TOP_MINUTE * (NUM_SECONDS_PER_MIN //
INTERVAL_IN_SECS))`: 900 samples from 0 to 15 minutes. -/
def window_time : List ℝ :=
  (List.range (TOP_MINUTE * (NUM_SECONDS_PER_MIN / INTERVAL_IN_SECS))).map
    (fun i => (TOP_MINUTE : ℝ) * i /
      (((TOP_MINUTE * (NUM_SECONDS_PER_MIN / INTERVAL_IN_SECS) : ℕ) : ℝ) - 1))

/-- Oracle inputs of one orchestration call: the `MIN_TARGET_ALTITUDE`
environment default, the weather-check result, the raw target positions from
the ephemeris adapter, the live feed's flights, the scan geometry per
(target, flight) pair, and the module-level default bounding box. -/
structure OrchCtx where
  env_min_altitude : ℝ
  is_clear : Bool
  weather : String
  targetRaw : String → ℝ × ℝ
  rawFlights : List RawFlight
  scanCtxOf : String → Flight → ScanCtx
  default_bbox : AreaBoundingBox

/-- The dict `get_transits` returns, plus the effect trace. -/
structure TransitsResult where
  flights : List TransitResponse
  targetCoordinates : List (String × (ℝ × ℝ))
  trackingTargets : List String
  weather : String
  boundingBox : AreaBoundingBox
  observerPosition : ℝ × ℝ × ℝ
  effects : List FetchEffect

/-- `get_transits` (live path, `test_mode = False`): weather check, target
coordinates via `get_coordinates` (rounded to 2 decimals), trackability
filter `altitude ≥ MIN_ALTITUDE and is_clear`, one live flight fetch when at
least one target is trackable, and `check_transit` for every trackable
target × parsed flight. -/
def get_transits (latitude longitude elevation : ℝ) (target_name : TargetSel)
    (min_altitude : Option ℝ) (custom_bbox : Option AreaBoundingBox)
    (ctx : OrchCtx) : TransitsResult :=
  let MIN_ALTITUDE := min_altitude.getD ctx.env_min_altitude
  let targetList := match target_name with
    | TargetSel.auto => ["moon", "sun"]
    | TargetSel.single t => [t]
  let coordsOf := fun t => (pyRound (ctx.targetRaw t).1 2, pyRound (ctx.targetRaw t).2 2)
  let target_coordinates := targetList.map (fun t => (t, coordsOf t))
  let targets_to_check := targetList.filter
    (fun t => decide (MIN_ALTITUDE ≤ (coordsOf t).1 ∧ ctx.is_clear = true))
  let search_bbox := custom_bbox.getD ctx.default_bbox
  let data :=
    if targets_to_check.isEmpty then []
    else
      let flight_data := ctx.rawFlights.map parse_fligh_data
      (targets_to_check.map (fun target =>
        flight_data.map (fun flight =>
          check_transit flight window_time (ctx.scanCtxOf target flight) false
            latitude longitude target))).flatten
  { flights := data
    targetCoordinates := target_coordinates
    trackingTargets := targets_to_check
    weather := ctx.weather
    boundingBox := search_bbox
    observerPosition := (latitude, longitude, elevation)
    effects := [FetchEffect.weatherFetch] ++
      (if targets_to_check.isEmpty then [] else [FetchEffect.flightFetch search_bbox]) }

/-! #### The `target` field of every record names its target -/

lemma transitLoop_targetName (ctx : ScanCtx) (flight : Flight) (tname : String)
    (ita itz dnm : ℝ) :
    ∀ (tail : List ℝ) (idx : ℕ) (st : ScanState),
      (∀ r, st.response = some r → r.target = tname) →
      ∀ r, (transitLoop ctx flight tname ita itz dnm tail idx st).response = some r →
        r.target = tname := by
  intro tail
  induction tail with
  | nil => intro idx st hst r hr; exact hst r hr
  | cons minute rest ih =>
      intro idx st hst r hr
      rw [transitLoop] at hr
      dsimp only at hr
      split_ifs at hr <;>
        first
          | exact hst r hr
          | (refine ih (idx + 1) _ ?_ r hr
             intro r0 hr0
             dsimp only at hr0
             first
               | exact hst r0 hr0
               | (simp only [Option.some_inj] at hr0
                  subst hr0
                  rfl))

lemma check_transit_targetName (flight : Flight) (w : List ℝ) (ctx : ScanCtx)
    (tm : Bool) (olat olon : ℝ) (tname : String) :
    (check_transit flight w ctx tm olat olon tname).target = tname := by
  unfold check_transit
  dsimp only
  set st0 : ScanState :=
    if tm = true then
      { minSep := some (calculate_angular_separation |ctx.currentAltAz.1 - ctx.targInit.1|
          |ctx.currentAltAz.2 - ctx.targInit.2|)
        response := if 0 < ctx.currentAltAz.1 then
            some (mkResponse flight tname (pyRound ctx.targInit.1 2) (pyRound ctx.targInit.2 2)
              (observer_distance_nm olat olon flight.latitude flight.longitude)
              |ctx.currentAltAz.1 - ctx.targInit.1| |ctx.currentAltAz.2 - ctx.targInit.2|
              (calculate_angular_separation |ctx.currentAltAz.1 - ctx.targInit.1|
                |ctx.currentAltAz.2 - ctx.targInit.2|)
              (some 0) ctx.currentAltAz.1 ctx.currentAltAz.2)
          else none
        count := 0
        targetPos := ctx.targInit
        stoppedAt := none }
    else initial_scan_state ctx with hst0
  have hst0t : ∀ r, st0.response = some r → r.target = tname := by
    intro r hr
    rw [hst0] at hr
    by_cases htm : tm = true
    · rw [if_pos htm] at hr
      dsimp only at hr
      by_cases halt : 0 < ctx.currentAltAz.1
      · rw [if_pos halt] at hr
        simp only [Option.some_inj] at hr
        subst hr
        rfl
      · rw [if_neg halt] at hr
        exact absurd hr (by simp)
    · rw [if_neg htm] at hr
      simp [initial_scan_state] at hr
  have hfinal := transitLoop_targetName ctx flight tname (pyRound ctx.targInit.1 2)
    (pyRound ctx.targInit.2 2)
    (observer_distance_nm olat olon flight.latitude flight.longitude) w 0 st0 hst0t
  cases hres : (transitLoop ctx flight tname (pyRound ctx.targInit.1 2)
      (pyRound ctx.targInit.2 2)
      (observer_distance_nm olat olon flight.latitude flight.longitude) w 0 st0).response with
  | none => simp only [hres]
  | some r0 =>
      have ht := hfinal r0 hres
      simp only [hres]
      by_cases h0 : r0.is_possible_transit = 0
      · rw [if_pos h0]; exact ht
      · rw [if_neg h0]; exact ht

/-- **C4 (amended).** In an `"auto"` orchestration call, a target is in the
trackable set iff its current (rounded) altitude is at least the
minimum-trackable-altitude *and* the weather check reported clear skies; every
candidate target still appears in the returned per-target coordinates; and a
target outside the trackable set contributes zero candidate records. -/
theorem get_transits_trackable (latitude longitude elevation : ℝ)
    (min_altitude : Option ℝ) (custom_bbox : Option AreaBoundingBox) (ctx : OrchCtx) :
    (∀ t, t ∈ (get_transits latitude longitude elevation TargetSel.auto min_altitude
        custom_bbox ctx).trackingTargets ↔
      (t ∈ (["moon", "sun"] : List String) ∧
        min_altitude.getD ctx.env_min_altitude ≤ pyRound (ctx.targetRaw t).1 2 ∧
        ctx.is_clear = true)) ∧
    (∀ t ∈ (["moon", "sun"] : List String),
      (t, (pyRound (ctx.targetRaw t).1 2, pyRound (ctx.targetRaw t).2 2)) ∈
        (get_transits latitude longitude elevation TargetSel.auto min_altitude
          custom_bbox ctx).targetCoordinates) ∧
    (∀ t, t ∉ (get_transits latitude longitude elevation TargetSel.auto min_altitude
        custom_bbox ctx).trackingTargets →
      ∀ rec ∈ (get_transits latitude longitude elevation TargetSel.auto min_altitude
        custom_bbox ctx).flights, rec.target ≠ t) := by
  unfold get_transits
  dsimp only
  refine ⟨?_, ?_, ?_⟩
  · intro t
    rw [List.mem_filter, decide_eq_true_eq]
  · intro t ht
    exact List.mem_map.mpr ⟨t, ht, rfl⟩
  · intro t hnt rec hrec
    by_cases hemp : (List.filter (fun t => decide
        (min_altitude.getD ctx.env_min_altitude ≤ pyRound (ctx.targetRaw t).1 2 ∧
          ctx.is_clear = true)) ["moon", "sun"]).isEmpty = true
    · rw [if_pos hemp] at hrec
      exact absurd hrec (by simp)
    · rw [if_neg hemp] at hrec
      obtain ⟨l, hl, hrecl⟩ := List.mem_flatten.mp hrec
      obtain ⟨target, htmem, hleq⟩ := List.mem_map.mp hl
      rw [← hleq] at hrecl
      obtain ⟨flight, _, hfeq⟩ := List.mem_map.mp hrecl
      rw [← hfeq, check_transit_targetName]
      intro hcontra
      rw [hcontra] at htmem
      exact hnt htmem

/-- Weather: cloudy sky. Moon at 40° altitude, sun at 5°, default minimum
trackable altitude 15°. -/
def c4ctx : OrchCtx :=
  { env_min_altitude := 15
    is_clear := false
    weather := "cloudy"
    targetRaw := fun t => if t = "moon" then (40, 100) else (5, 200)
    rawFlights := []
    scanCtxOf := fun _ _ =>
      { currentAltAz := (0, 0), altazAt := fun _ _ => (0, 0), targInit := (0, 0),
        targAt := fun _ => (0, 0) }
    default_bbox := ⟨0, 0, 1, 1⟩ }

/-- **C4 counterexample.** With cloudy weather the moon at 40° ≥ 15° is *not*
trackable: trackability is not equivalent to the altitude bar alone. -/
theorem get_transits_weather_gate_cex :
    (15 : ℝ) ≤ pyRound (c4ctx.targetRaw "moon").1 2 ∧
    c4ctx.env_min_altitude = 15 ∧
    "moon" ∉ (get_transits 0 0 0 TargetSel.auto none none c4ctx).trackingTargets := by
  have e40 : pyRound (40 : ℝ) 2 = 40 := pyRound_eq_self (m := 4000) (by norm_num)
  refine ⟨?_, rfl, ?_⟩
  · have h : c4ctx.targetRaw "moon" = (40, 100) := by simp [c4ctx]
    rw [h]
    dsimp only
    rw [e40]
    norm_num
  · intro hmem
    unfold get_transits at hmem
    dsimp only at hmem
    rw [List.mem_filter, decide_eq_true_eq] at hmem
    have := hmem.2.2
    simp [c4ctx] at this

/-- Clear weather, moon at 40°, sun at 5°, minimum trackable altitude 15°
(the end-to-end scenario C geometry). -/
def c4okctx : OrchCtx :=
  { env_min_altitude := 15
    is_clear := true
    weather := "clear"
    targetRaw := fun t => if t = "moon" then (40, 100) else (5, 200)
    rawFlights := []
    scanCtxOf := fun _ _ =>
      { currentAltAz := (0, 0), altazAt := fun _ _ => (0, 0), targInit := (0, 0),
        targAt := fun _ => (0, 0) }
    default_bbox := ⟨0, 0, 1, 1⟩ }

/-- Witness for C4 (amended): with clear weather, sun at 5° and moon at 40°
against a 15° bar, only "moon" is trackable; "sun" still appears in the
per-target coordinates and contributes zero candidates. -/
theorem get_transits_trackable_witness :
    "moon" ∈ (get_transits 0 0 0 TargetSel.auto none none c4okctx).trackingTargets ∧
    "sun" ∉ (get_transits 0 0 0 TargetSel.auto none none c4okctx).trackingTargets ∧
    ("sun", (pyRound (c4okctx.targetRaw "sun").1 2, pyRound (c4okctx.targetRaw "sun").2 2)) ∈
      (get_transits 0 0 0 TargetSel.auto none none c4okctx).targetCoordinates ∧
    ∀ rec ∈ (get_transits 0 0 0 TargetSel.auto none none c4okctx).flights,
      rec.target ≠ "sun" := by
  have e40 : pyRound (40 : ℝ) 2 = 40 := pyRound_eq_self (m := 4000) (by norm_num)
  have e5 : pyRound (5 : ℝ) 2 = 5 := pyRound_eq_self (m := 500) (by norm_num)
  have h := get_transits_trackable 0 0 0 none none c4okctx
  have hsun : "sun" ∉ (get_transits 0 0 0 TargetSel.auto none none c4okctx).trackingTargets := by
    intro hmem
    have h2 := ((h.1 "sun").mp hmem).2.1
    have hr : c4okctx.targetRaw "sun" = (5, 200) := by simp [c4okctx]
    rw [hr] at h2
    dsimp only at h2
    rw [e5] at h2
    have : ((none : Option ℝ).getD c4okctx.env_min_altitude) = 15 := rfl
    rw [this] at h2
    norm_num at h2
  refine ⟨?_, hsun, ?_, ?_⟩
  · apply (h.1 "moon").mpr
    refine ⟨by simp, ?_, rfl⟩
    have hr : c4okctx.targetRaw "moon" = (40, 100) := by simp [c4okctx]
    rw [hr]
    dsimp only
    rw [e40]
    show (none : Option ℝ).getD c4okctx.env_min_altitude ≤ 40
    norm_num [c4okctx]
  · exact h.2.1 "sun" (by simp)
  · exact h.2.2 "sun" hsun

/-- **C8 (code-bug evidence).** In an orchestration call with a trackable
target, `get_transits` performs a *live* flight fetch and never touches the
flight-data cache: the external-effect trace is exactly the weather check
followed by the live fetch, with no `cacheGet`/`cacheSet` — although
`flight_cache.py` provides a global `FlightDataCache` for exactly this data
and the `/config` endpoint advertises `cacheEnabled: True`. -/
theorem get_transits_no_cache_use :
    (get_transits 0 0 0 TargetSel.auto none none c4okctx).trackingTargets ≠ [] ∧
    (get_transits 0 0 0 TargetSel.auto none none c4okctx).effects =
      [FetchEffect.weatherFetch,
        FetchEffect.flightFetch ((none : Option AreaBoundingBox).getD c4okctx.default_bbox)] ∧
    (∀ b, FetchEffect.cacheGet b ∉ (get_transits 0 0 0 TargetSel.auto none none c4okctx).effects) ∧
    (∀ b, FetchEffect.cacheSet b ∉ (get_transits 0 0 0 TargetSel.auto none none c4okctx).effects) := by
  have e40 : pyRound (40 : ℝ) 2 = 40 := pyRound_eq_self (m := 4000) (by norm_num)
  have hmem : "moon" ∈ (get_transits 0 0 0 TargetSel.auto none none c4okctx).trackingTargets := by
    unfold get_transits
    dsimp only
    rw [List.mem_filter, decide_eq_true_eq]
    refine ⟨by simp, ?_, rfl⟩
    have hr : c4okctx.targetRaw "moon" = (40, 100) := by simp [c4okctx]
    rw [hr]
    dsimp only
    rw [e40]
    show (none : Option ℝ).getD c4okctx.env_min_altitude ≤ 40
    norm_num [c4okctx]
  have hne : (get_transits 0 0 0 TargetSel.auto none none c4okctx).trackingTargets ≠ [] :=
    List.ne_nil_of_mem hmem
  have hemp : (get_transits 0 0 0 TargetSel.auto none none c4okctx).trackingTargets.isEmpty =
      false := by
    rw [List.isEmpty_eq_false]
    exact hne
  have heff0 : (get_transits 0 0 0 TargetSel.auto none none c4okctx).effects =
      [FetchEffect.weatherFetch] ++
        (if (get_transits 0 0 0 TargetSel.auto none none c4okctx).trackingTargets.isEmpty
          then []
          else [FetchEffect.flightFetch
            ((none : Option AreaBoundingBox).getD c4okctx.default_bbox)]) := rfl
  have heff : (get_transits 0 0 0 TargetSel.auto none none c4okctx).effects =
      [FetchEffect.weatherFetch,
        FetchEffect.flightFetch ((none : Option AreaBoundingBox).getD c4okctx.default_bbox)] := by
    rw [heff0, hemp]
    rfl
  refine ⟨hne, heff, ?_, ?_⟩
  · intro b hb
    rw [heff] at hb
    simp at hb
  · intro b hb
    rw [heff] at hb
    simp at hb
